import Mathlib

/-!
# Terminal state lifecycle of `abakum/term`

A shallow embedding of `term_unix.go` and `term_windows.go`.

The operating system is an explicit value: a `World` maps descriptors to the
terminal device they refer to (several descriptors may refer to one device),
holds the configuration of every device and the trace of the state-changing
calls issued so far, each with its outcome. Whether the system accepts a
configuration call is decided by a `Platform`, an arbitrary function of the
whole world, so every pattern of successes and failures is covered.

Go pointers that may be nil are `Option`; a run-time panic (nil dereference)
is the `none` result of a function returning `Option`.
-/

namespace Term

/-- Go `error` values that the two files produce. -/
inductive Error
  | invalidTerminalState
  | syscall
  deriving DecidableEq, Repr

/-- One state-changing call issued by the program, with its outcome:
`set fd cfg ok` is `tcset` / `SetConsoleMode` on `fd`, `rcClose ok` is
`s.rc.Close()`, `exit n` is `os.Exit(n)`. -/
inductive Event (Cfg : Type)
  | set (fd : Nat) (cfg : Cfg) (ok : Bool)
  | rcClose (ok : Bool)
  | exit (status : Nat)
  deriving DecidableEq, Repr

/-- The operating-system state: `dev fd` is the terminal device behind `fd`
(`none` when `fd` is a file, a pipe or closed), `cfg d` the configuration of
device `d`, `log` the calls issued so far, oldest first. -/
structure World (Cfg : Type) where
  dev : Nat → Option Nat
  cfg : Nat → Cfg
  log : List (Event Cfg)

/-- What the program does not control: `accept w fd c` tells whether the
system accepts configuration `c` on `fd` in world `w`, `onReject w fd c` is the
configuration the device is left with when it does not (the source notes that
`SetConsoleMode` remembers invalid bits on input handles), and `toRawInput`
is the raw-input configuration computed by `makeRaw`, which is not part of
the two files. -/
structure Platform (Cfg : Type) where
  accept : World Cfg → Nat → Cfg → Bool
  onReject : World Cfg → Nat → Cfg → Cfg
  toRawInput : Cfg → Cfg

/-- The query `tcget` / `GetConsoleMode`: it succeeds exactly on a terminal
and changes nothing. -/
def getCfg {Cfg : Type} (w : World Cfg) (fd : Nat) : Option Cfg :=
  match w.dev fd with
  | none => none
  | some d => some (w.cfg d)

/-- The call `tcset` / `SetConsoleMode`: it fails on a descriptor that is not
a terminal, and otherwise succeeds or fails as the platform decides. The call
and its outcome are appended to the trace. -/
def setCfg {Cfg : Type} (K : Platform Cfg) (w : World Cfg) (fd : Nat) (c : Cfg) :
    World Cfg × Bool :=
  match w.dev fd with
  | none => ({ w with log := w.log ++ [Event.set fd c false] }, false)
  | some d =>
    if K.accept w fd c then
      ({ w with cfg := Function.update w.cfg d c, log := w.log ++ [Event.set fd c true] }, true)
    else
      ({ w with cfg := Function.update w.cfg d (K.onReject w fd c),
                log := w.log ++ [Event.set fd c false] }, false)

/-- Go's `x &^ y` (AND NOT) on unsigned integers. -/
def andNot (x y : Nat) : Nat := x ^^^ (x &&& y)

/-- Values of `io.ReadCloser` that occur: `os.Stdin`, the emulated reader
`windowsconsole.NewAnsiReader(h)` and the reader over a duplicate of stdin. -/
inductive ReadCloser
  | osStdin
  | ansiReader (h : Nat)
  | ansiReaderDuplicate
  deriving DecidableEq, Repr

/-- Values of `io.Writer` that occur: `os.Stdout`, `os.Stderr` and the
emulated writer `windowsconsole.NewAnsiWriter(h)`. -/
inductive Writer
  | osStdout
  | osStderr
  | ansiWriter (h : Nat)
  deriving DecidableEq, Repr

/-- The descriptors of `os.Stdin`, `os.Stdout`, `os.Stderr`. On Windows they
stand for the three handle values; two handles on one console are two
descriptors with the same `dev`. -/
def stdinFd : Nat := 0

/-- Descriptor of `os.Stdout`. -/
def stdoutFd : Nat := 1

/-- Descriptor of `os.Stderr`. -/
def stderrFd : Nat := 2

end Term

namespace Unix

open Term

/-- The structure `unix.Termios` (golang.org/x/sys/unix, Linux layout). -/
structure Termios where
  Iflag : Nat
  Oflag : Nat
  Cflag : Nat
  Lflag : Nat
  Line : Nat
  Cc : List Nat
  Ispeed : Nat
  Ospeed : Nat
  deriving DecidableEq, Repr

/-- The constant `unix.ECHO`. -/
def ECHO : Nat := 0x8

/-- The type `terminalState` (`State`) of `term_unix.go`. -/
structure State where
  termios : Termios
  deriving DecidableEq, Repr

/-- `stdStreams` of `term_unix.go`: the three native streams. -/
def stdStreams : ReadCloser × Writer × Writer :=
  (ReadCloser.osStdin, Writer.osStdout, Writer.osStderr)

/-- `tcget`: `unix.IoctlGetTermios`; the result is either the configuration
(error nil) or the error (pointer nil). -/
def tcget (w : World Termios) (fd : Nat) : Except Error Termios :=
  match getCfg w fd with
  | none => Except.error Error.syscall
  | some p => Except.ok p

/-- `tcset`: `unix.IoctlSetTermios`. -/
def tcset (K : Platform Termios) (w : World Termios) (fd : Nat) (p : Termios) :
    World Termios × Option Error :=
  match setCfg K w fd p with
  | (w', true) => (w', none)
  | (w', false) => (w', some Error.syscall)

/-- `isTerminal` of `term_unix.go`. -/
def isTerminal (w : World Termios) (fd : Nat) : Bool :=
  match tcget w fd with
  | Except.ok _ => true
  | Except.error _ => false

/-- `restoreTerminal` of `term_unix.go`. -/
def restoreTerminal (K : Platform Termios) (w : World Termios) (fd : Nat)
    (state : Option State) : World Termios × Option Error :=
  match state with
  | none => (w, some Error.invalidTerminalState)
  | some st => tcset K w fd st.termios

/-- `saveState` of `term_unix.go`; the result is either the new state (error
nil) or the error (state nil). -/
def saveState (w : World Termios) (fd : Nat) : Except Error State :=
  match tcget w fd with
  | Except.error err => Except.error err
  | Except.ok termios => Except.ok { termios := termios }

/-- `disableEcho` of `term_unix.go`. The result is `none` when `state` is nil
(the read of `state.termios` panics); otherwise it holds the world, the value
`*state` has when the function returns, and the error. -/
def disableEcho (K : Platform Termios) (w : World Termios) (fd : Nat)
    (state : Option State) : Option (World Termios × State × Option Error) :=
  match state with
  | none => none
  | some st =>
    let newState : Termios := st.termios
    let newState : Termios := { newState with Lflag := andNot newState.Lflag ECHO }
    let (w', err) := tcset K w fd newState
    some (w', st, err)

/-- Modelled from the spec: `makeRaw` is not in the two files. The spec's
`setRawInputMode` "captures then transitions": the current configuration is
captured, a failure to capture is returned without touching the terminal, the
raw-input configuration derived from the capture is installed, and the
capture is returned when that succeeds. -/
def makeRaw (K : Platform Termios) (w : World Termios) (fd : Nat) :
    World Termios × Except Error State :=
  match saveState w fd with
  | Except.error err => (w, Except.error err)
  | Except.ok oldState =>
    match tcset K w fd (K.toRawInput oldState.termios) with
    | (w', none) => (w', Except.ok oldState)
    | (w', some err) => (w', Except.error err)

/-- `setRawTerminal` of `term_unix.go`: the state pointer and the error. -/
def setRawTerminal (K : Platform Termios) (w : World Termios) (fd : Nat) :
    World Termios × Option State × Option Error :=
  match makeRaw K w fd with
  | (w', Except.ok st) => (w', some st, none)
  | (w', Except.error err) => (w', none, some err)

/-- `setRawTerminalOutput` of `term_unix.go`: no snapshot, no error. -/
def setRawTerminalOutput (_fd : Nat) : Option State × Option Error :=
  (none, none)

/-- The type `IOE` of `term_unix.go`. -/
structure IOE where
  i : Option State
  o : Option State
  e : Option State
  rc : Option ReadCloser
  deriving DecidableEq, Repr

/-- `NewIOE` of `term_unix.go`; the result is the new session (never nil). -/
def NewIOE (K : Platform Termios) (w : World Termios) : World Termios × IOE :=
  let _streams := stdStreams
  let (w1, i, _) := setRawTerminal K w stdinFd
  let (o, _) := setRawTerminalOutput stdoutFd
  let (e, _) := setRawTerminalOutput stderrFd
  (w1, { i := i, o := o, e := e, rc := some ReadCloser.osStdin })

/-- `ReadCloser` method of `IOE`. -/
def IOE.ReadCloser (s : IOE) : Option ReadCloser := s.rc

/-- One block of `Close`:
`if slot != nil { if restoreTerminal(fd, slot) == nil { slot = nil } }`.
The result is the world and the slot afterwards. -/
def restoreSlot (K : Platform Termios) (w : World Termios) (fd : Nat)
    (slot : Option State) : World Termios × Option State :=
  match slot with
  | none => (w, none)
  | some st =>
    match restoreTerminal K w fd (some st) with
    | (w', none) => (w', none)
    | (w', some _) => (w', some st)

/-- `Close` of `term_unix.go`. The receiver may be nil; the result holds the
session the receiver points to after the call (the final `s = nil` assigns the
local receiver variable only). The block on `s.rc` is commented out in the
source. -/
def Close (K : Platform Termios) (w : World Termios) :
    Option IOE → World Termios × Option IOE
  | none => (w, none)
  | some s =>
    let (w1, e) := restoreSlot K w stderrFd s.e
    let (w2, o) := restoreSlot K w1 stdoutFd s.o
    let (w3, i) := restoreSlot K w2 stdinFd s.i
    (w3, some { i := i, o := o, e := e, rc := s.rc })

/-- The caller calling `s.Close()` `n` times in a row on the same session. -/
def closeN (K : Platform Termios) : Nat → World Termios → Option IOE →
    World Termios × Option IOE
  | 0, w, s => (w, s)
  | n + 1, w, s =>
    let (w', s') := Close K w s
    closeN K n w' s'

end Unix

namespace Windows

open Term

/-- The type `terminalState` (`State`) of `term_windows.go`: a console mode,
a `uint32`. -/
structure State where
  mode : Nat
  deriving DecidableEq, Repr

/-- The constant `windows.ENABLE_PROCESSED_INPUT`. -/
def ENABLE_PROCESSED_INPUT : Nat := 0x1

/-- The constant `windows.ENABLE_LINE_INPUT`. -/
def ENABLE_LINE_INPUT : Nat := 0x2

/-- The constant `windows.ENABLE_ECHO_INPUT`. -/
def ENABLE_ECHO_INPUT : Nat := 0x4

/-- The constant `windows.ENABLE_VIRTUAL_TERMINAL_INPUT`. -/
def ENABLE_VIRTUAL_TERMINAL_INPUT : Nat := 0x200

/-- The constant `windows.ENABLE_VIRTUAL_TERMINAL_PROCESSING`. -/
def ENABLE_VIRTUAL_TERMINAL_PROCESSING : Nat := 0x4

/-- The constant `windows.DISABLE_NEWLINE_AUTO_RETURN`. -/
def DISABLE_NEWLINE_AUTO_RETURN : Nat := 0x8

/-- The value `uint32(windows.STD_INPUT_HANDLE)`, that is -10 modulo 2^32. -/
def STD_INPUT_HANDLE : Nat := 4294967286

/-- The value `uint32(windows.STD_OUTPUT_HANDLE)`, that is -11 modulo 2^32. -/
def STD_OUTPUT_HANDLE : Nat := 4294967285

/-- The value `uint32(windows.STD_ERROR_HANDLE)`, that is -12 modulo 2^32. -/
def STD_ERROR_HANDLE : Nat := 4294967284

/-- The process: the operating-system world, the package variable
`vtInputSupported`, and the interrupt handlers registered so far (one entry
per goroutine started by `restoreAtInterrupt`, with the descriptor and the
state pointer it closed over), oldest first. -/
structure Proc where
  world : World Nat
  vtInputSupported : Bool
  handlers : List (Nat × Option State)

/-- The platform together with the two operations of the package
`windowsconsole` that `NewIOE` and `Close` use and that are not in the two
files: whether `s.rc.Close()` succeeds, and whether
`NewAnsiReaderDuplicate(os.Stdin)` returns a reader. -/
structure Host extends Platform Nat where
  rcCloseOk : World Nat → Bool
  duplicateOk : World Nat → Bool

/-- `windows.GetConsoleMode`: `some mode` when the call succeeds. -/
def GetConsoleMode (p : Proc) (fd : Nat) : Option Nat :=
  getCfg p.world fd

/-- `windows.SetConsoleMode`: the flag is `true` when the error is nil. -/
def SetConsoleMode (K : Host) (p : Proc) (fd : Nat) (mode : Nat) : Proc × Bool :=
  match setCfg K.toPlatform p.world fd mode with
  | (w', ok) => ({ p with world := w' }, ok)

/-- Lines 31-42 of `stdStreams`: the probe of stdin; the flag is
`emulateStdin`. -/
def stdStreams.probeStdin (K : Host) (p : Proc) : Proc × Bool :=
  match GetConsoleMode p stdinFd with
  | none => (p, false)
  | some mode =>
    match SetConsoleMode K p stdinFd (mode ||| ENABLE_VIRTUAL_TERMINAL_INPUT) with
    | (p1, false) => ((SetConsoleMode K p1 stdinFd mode).1, true)
    | (p1, true) =>
      ((SetConsoleMode K { p1 with vtInputSupported := true } stdinFd mode).1, false)

/-- Lines 44-52 and 54-62 of `stdStreams`: the probe of stdout, repeated for
stderr; the flag is `emulateStdout`, `emulateStderr`. -/
def stdStreams.probeOutput (K : Host) (p : Proc) (fd : Nat) : Proc × Bool :=
  match GetConsoleMode p fd with
  | none => (p, false)
  | some mode =>
    match SetConsoleMode K p fd
        (mode ||| ENABLE_VIRTUAL_TERMINAL_PROCESSING ||| DISABLE_NEWLINE_AUTO_RETURN) with
    | (p1, false) => (p1, true)
    | (p1, true) =>
      ((SetConsoleMode K p1 fd (mode ||| ENABLE_VIRTUAL_TERMINAL_PROCESSING)).1, false)

/-- `stdStreams` of `term_windows.go`. -/
def stdStreams (K : Host) (p : Proc) : Proc × ReadCloser × Writer × Writer :=
  let (p1, emulateStdin) := stdStreams.probeStdin K p
  let (p2, emulateStdout) := stdStreams.probeOutput K p1 stdoutFd
  let (p3, emulateStderr) := stdStreams.probeOutput K p2 stderrFd
  let stdIn := if emulateStdin then ReadCloser.ansiReader STD_INPUT_HANDLE
    else ReadCloser.osStdin
  let stdOut := if emulateStdout then Writer.ansiWriter STD_OUTPUT_HANDLE
    else Writer.osStdout
  let stdErr := if emulateStderr then Writer.ansiWriter STD_ERROR_HANDLE
    else Writer.osStderr
  (p3, stdIn, stdOut, stdErr)

/-- `isTerminal` of `term_windows.go`. -/
def isTerminal (p : Proc) (fd : Nat) : Bool :=
  match GetConsoleMode p fd with
  | some _ => true
  | none => false

/-- `restoreTerminal` of `term_windows.go`. There is no nil check: with a nil
`state` the read of `state.mode` panics, which is the result `none`. -/
def restoreTerminal (K : Host) (p : Proc) (fd : Nat) (state : Option State) :
    Option (Proc × Option Error) :=
  match state with
  | none => none
  | some st =>
    match SetConsoleMode K p fd st.mode with
    | (p', true) => some (p', none)
    | (p', false) => some (p', some Error.syscall)

/-- `saveState` of `term_windows.go`; the result is either the new state
(error nil) or the error (state nil). -/
def saveState (p : Proc) (fd : Nat) : Except Error State :=
  match GetConsoleMode p fd with
  | none => Except.error Error.syscall
  | some mode => Except.ok { mode := mode }

/-- `restoreAtInterrupt` of `term_windows.go`: a new channel is subscribed to
the interrupt signal and a new goroutine waits on it; nothing is removed. -/
def restoreAtInterrupt (p : Proc) (fd : Nat) (state : Option State) : Proc :=
  { p with handlers := p.handlers ++ [(fd, state)] }

/-- Modelled from the spec: the exported `RestoreTerminal` is not in the two
files. The spec's `restoreState(streamId, Snapshot)` "applies a previously
captured configuration verbatim" and returns the failure to its caller; this
is `restoreTerminal`. -/
def RestoreTerminal (K : Host) (p : Proc) (fd : Nat) (state : Option State) :
    Option (Proc × Option Error) :=
  restoreTerminal K p fd state

/-- `os.Exit(code)`: recorded in the trace. -/
def osExit (p : Proc) (code : Nat) : Proc :=
  { p with world := { p.world with log := p.world.log ++ [Event.exit code] } }

/-- The body of the goroutine of `restoreAtInterrupt` from the moment the
signal is received on `sigchan`: `RestoreTerminal(fd, state)`, its result
dropped, then `os.Exit(0)`. The result is `none` when the restore panics. -/
def interruptHandler (K : Host) (p : Proc) (fd : Nat) (state : Option State) :
    Option Proc :=
  match RestoreTerminal K p fd state with
  | none => none
  | some (p', _) => some (osExit p' 0)

/-- Whether the process has terminated: an `os.Exit` is in the trace. -/
def exited (p : Proc) : Bool :=
  p.world.log.any (fun ev => match ev with
    | Event.exit _ => true
    | _ => false)

/-- Delivery of the interrupt signal to the goroutine registered at position
`i` of `handlers`: `signal.Notify` has subscribed its channel, so the receive
`<-sigchan` completes and the body runs with the descriptor and the state it
closed over. Nothing runs when no goroutine is registered at `i` or when the
process has already terminated. -/
def deliverInterrupt (K : Host) (p : Proc) (i : Nat) : Option Proc :=
  match p.handlers[i]? with
  | none => some p
  | some (fd, state) => if exited p then some p else interruptHandler K p fd state

/-- `disableEcho` of `term_windows.go`. The result is `none` when `state` is
nil (the read of `state.mode` panics); otherwise it holds the process, the
value `*state` has when the function returns, and the error. -/
def disableEcho (K : Host) (p : Proc) (fd : Nat) (state : Option State) :
    Option (Proc × State × Option Error) :=
  match state with
  | none => none
  | some st =>
    let mode : Nat := st.mode
    let mode : Nat := andNot mode ENABLE_ECHO_INPUT
    let mode : Nat := mode ||| (ENABLE_PROCESSED_INPUT ||| ENABLE_LINE_INPUT)
    match SetConsoleMode K p fd mode with
    | (p', false) => some (p', st, some Error.syscall)
    | (p', true) => some (restoreAtInterrupt p' fd (some st), st, none)

/-- Modelled from the spec: `MakeRaw` is not in the two files. The spec's
`setRawInputMode` "captures then transitions": the current mode is captured,
a failure to capture is returned without touching the console, the raw-input
mode derived from the capture is installed, and the capture is returned when
that succeeds. -/
def MakeRaw (K : Host) (p : Proc) (fd : Nat) : Proc × Except Error State :=
  match saveState p fd with
  | Except.error err => (p, Except.error err)
  | Except.ok oldState =>
    match SetConsoleMode K p fd (K.toRawInput oldState.mode) with
    | (p', true) => (p', Except.ok oldState)
    | (p', false) => (p', Except.error Error.syscall)

/-- `setRawTerminal` of `term_windows.go`: the state pointer and the error. -/
def setRawTerminal (K : Host) (p : Proc) (fd : Nat) :
    Proc × Option State × Option Error :=
  match MakeRaw K p fd with
  | (p', Except.error err) => (p', none, some err)
  | (p', Except.ok oldState) => (restoreAtInterrupt p' fd (some oldState), some oldState, none)

/-- `setRawTerminalOutput` of `term_windows.go`: the state pointer and the
error. -/
def setRawTerminalOutput (K : Host) (p : Proc) (fd : Nat) :
    Proc × Option State × Option Error :=
  match saveState p fd with
  | Except.error err => (p, none, some err)
  | Except.ok oldState =>
    let (p', _) := SetConsoleMode K p fd (oldState.mode ||| DISABLE_NEWLINE_AUTO_RETURN)
    (p', some oldState, none)

/-- The type `IOE` of `term_windows.go`. -/
structure IOE where
  i : Option State
  o : Option State
  e : Option State
  rc : Option ReadCloser
  deriving DecidableEq, Repr

/-- Modelled from the spec: `windowsconsole.NewAnsiReaderDuplicate` is not in
the two files. The spec describes "an emulation-aware substitute opened as a
duplicate of stdin": the reader, or nil when the host reports a failure; the
console modes are not touched. -/
def NewAnsiReaderDuplicate (K : Host) (p : Proc) : Option ReadCloser :=
  if K.duplicateOk p.world then some ReadCloser.ansiReaderDuplicate else none

/-- `NewIOE` of `term_windows.go`; the result is the new session (never nil). -/
def NewIOE (K : Host) (p : Proc) : Proc × IOE :=
  let (p0, _streams) := stdStreams K p
  let (p1, i, _) := setRawTerminal K p0 stdinFd
  let (p2, o, _) := setRawTerminalOutput K p1 stdoutFd
  let (p3, e, _) := setRawTerminalOutput K p2 stderrFd
  let rc := NewAnsiReaderDuplicate K p3
  (p3, { i := i, o := o, e := e, rc := rc })

/-- The first block of `Close`:
`if s.rc != nil { if s.rc.Close() == nil { s.rc = nil } }`. Modelled from the
spec for the call itself: closing the substituted reader succeeds or fails as
the host decides and does not touch the console modes. -/
def closeReader (K : Host) (p : Proc) (rc : Option ReadCloser) :
    Proc × Option ReadCloser :=
  match rc with
  | none => (p, none)
  | some r =>
    let ok := K.rcCloseOk p.world
    let p' : Proc :=
      { p with world := { p.world with log := p.world.log ++ [Event.rcClose ok] } }
    if ok then (p', none) else (p', some r)

/-- One of the three other blocks of `Close`:
`if slot != nil { if restoreTerminal(fd, slot) == nil { slot = nil } }`.
The result is the process and the slot afterwards, `none` on a panic. -/
def restoreSlot (K : Host) (p : Proc) (fd : Nat) (slot : Option State) :
    Option (Proc × Option State) :=
  match slot with
  | none => some (p, none)
  | some st =>
    match restoreTerminal K p fd (some st) with
    | none => none
    | some (p', none) => some (p', none)
    | some (p', some _) => some (p', some st)

/-- `Close` of `term_windows.go`. The receiver may be nil; the result holds
the session the receiver points to after the call (the final `s = nil` assigns
the local receiver variable only), and is `none` on a panic. -/
def Close (K : Host) (p : Proc) : Option IOE → Option (Proc × Option IOE)
  | none => some (p, none)
  | some s =>
    match closeReader K p s.rc with
    | (p0, rc) =>
      match restoreSlot K p0 stderrFd s.e with
      | none => none
      | some (p1, e) =>
        match restoreSlot K p1 stdoutFd s.o with
        | none => none
        | some (p2, o) =>
          match restoreSlot K p2 stdinFd s.i with
          | none => none
          | some (p3, i) => some (p3, some { i := i, o := o, e := e, rc := rc })

/-- The caller calling `s.Close()` `n` times in a row on the same session. -/
def closeN (K : Host) : Nat → Proc → Option IOE → Option (Proc × Option IOE)
  | 0, p, s => some (p, s)
  | n + 1, p, s =>
    match Close K p s with
    | none => none
    | some (p', s') => closeN K n p' s'

end Windows

/-! ## Vocabulary of the statements and concrete inputs -/

namespace Unix

open Term

/-- The trace of one restore attempt on a slot: nothing for an absent slot,
one `tcset` of the snapshot with outcome `ok` for a present one. -/
def restoreTrace (fd : Nat) (slot : Option State) (ok : Bool) : List (Event Termios) :=
  match slot with
  | none => []
  | some st => [Event.set fd st.termios ok]

/-- The slot after one restore attempt with outcome `ok`: absent when it was
absent or the restore succeeded, unchanged when the restore failed. -/
def slotAfter (slot : Option State) (ok : Bool) : Option State :=
  match slot with
  | none => none
  | some st => if ok then none else some st

/-- A cooked-mode configuration: ECHO, ICANON and ISIG are set in `Lflag`. -/
def cooked : Termios :=
  { Iflag := 0x500, Oflag := 0x5, Cflag := 0xbf, Lflag := 0x8a3b, Line := 0,
    Cc := [3, 28, 127, 21, 4, 0, 1], Ispeed := 15, Ospeed := 15 }

/-- A world in which the three standard descriptors are one terminal in
cooked mode and no call has been issued yet. -/
def ttyWorld : World Termios :=
  { dev := fun _ => some 0, cfg := fun _ => cooked, log := [] }

/-- A configuration in raw mode: `cooked` with ECHO, ICANON and ISIG cleared. -/
def raw : Termios :=
  { cooked with Lflag := 0x8a30 }

/-- A world in which the three standard descriptors are one terminal that has
been put in raw mode. -/
def rawWorld : World Termios :=
  { dev := fun _ => some 0, cfg := fun _ => raw, log := [] }

/-- The session `NewIOE` returns on a terminal that was in cooked mode: the
stdin slot holds the cooked configuration. -/
def rawSession : IOE :=
  { i := some { termios := cooked }, o := none, e := none, rc := some ReadCloser.osStdin }

/-- A world in which stdin is a file and stdout, stderr are one terminal. -/
def pipedWorld : World Termios :=
  { dev := fun fd => if fd = 0 then none else some 0, cfg := fun _ => cooked, log := [] }

/-- A platform that accepts every configuration; raw input clears ECHO,
ICANON and ISIG. -/
def accepting : Platform Termios :=
  { accept := fun _ _ _ => true
    onReject := fun w fd _ => match w.dev fd with | none => cooked | some d => w.cfg d
    toRawInput := fun t => { t with Lflag := andNot t.Lflag 0xb } }

/-- A platform on which a configuration call on stderr, stdout, stdin has the
outcome `re`, `ro`, `ri`; a rejected call leaves the configuration as it was. -/
def deciding (re ro ri : Bool) : Platform Termios :=
  { accept := fun _ fd _ => if fd = stderrFd then re else if fd = stdoutFd then ro else ri
    onReject := fun w fd _ => match w.dev fd with | none => cooked | some d => w.cfg d
    toRawInput := fun t => { t with Lflag := andNot t.Lflag 0xb } }

end Unix

namespace Unix

open Term

/-- A platform on which the first configuration call fails and every later
one succeeds (a transient failure); a rejected call leaves the configuration
as it was. -/
def flaky : Platform Termios :=
  { accept := fun w _ _ => !w.log.isEmpty
    onReject := fun w fd _ => match w.dev fd with | none => cooked | some d => w.cfg d
    toRawInput := fun t => { t with Lflag := andNot t.Lflag 0xb } }

/-- Whether some slot of the session still holds a snapshot. -/
def pending : Option IOE → Bool
  | none => false
  | some s => s.i.isSome || s.o.isSome || s.e.isSome

end Unix

namespace Windows

open Term

/-- The trace of one restore attempt on a slot: nothing for an absent slot,
one `SetConsoleMode` of the snapshot with outcome `ok` for a present one. -/
def restoreTrace (fd : Nat) (slot : Option State) (ok : Bool) : List (Event Nat) :=
  match slot with
  | none => []
  | some st => [Event.set fd st.mode ok]

/-- The slot after one restore attempt with outcome `ok`: absent when it was
absent or the restore succeeded, unchanged when the restore failed. -/
def slotAfter (slot : Option State) (ok : Bool) : Option State :=
  match slot with
  | none => none
  | some st => if ok then none else some st

/-- The trace of the block on `s.rc`: nothing when `rc` is nil, one
`rc.Close()` with outcome `ok` otherwise. -/
def readerTrace (rc : Option ReadCloser) (ok : Bool) : List (Event Nat) :=
  match rc with
  | none => []
  | some _ => [Event.rcClose ok]

/-- The field `rc` after the block on `s.rc` with outcome `ok`. -/
def readerAfter (rc : Option ReadCloser) (ok : Bool) : Option ReadCloser :=
  match rc with
  | none => none
  | some r => if ok then none else some r

/-- Whether some slot of the session still holds a snapshot or the reader is
still open. -/
def pending : Option IOE → Bool
  | none => false
  | some s => s.i.isSome || s.o.isSome || s.e.isSome || s.rc.isSome

/-- An arming operation of a session: `setRawTerminal(fd)` or
`disableEcho(fd, state)` with a state that is not nil. -/
inductive ArmOp
  | setRaw (fd : Nat)
  | echoOff (fd : Nat) (state : State)
  deriving DecidableEq, Repr

/-- The descriptor an arming operation is applied to. -/
def ArmOp.fd : ArmOp → Nat
  | ArmOp.setRaw fd => fd
  | ArmOp.echoOff fd _ => fd

/-- One arming operation; the flag tells whether it returned a nil error. -/
def arm (K : Host) (p : Proc) : ArmOp → Option (Proc × Bool)
  | ArmOp.setRaw fd =>
    match setRawTerminal K p fd with
    | (p', _, err) => some (p', err.isNone)
  | ArmOp.echoOff fd st =>
    match disableEcho K p fd (some st) with
    | none => none
    | some (p', _, err) => some (p', err.isNone)

/-- A sequence of arming operations, in order; the result lists for each
operation its descriptor and whether it succeeded. -/
def armAll (K : Host) : Proc → List ArmOp → Option (Proc × List (Nat × Bool))
  | p, [] => some (p, [])
  | p, op :: ops =>
    match arm K p op with
    | none => none
    | some (p1, ok) =>
      match armAll K p1 ops with
      | none => none
      | some (p2, oks) => some (p2, (op.fd, ok) :: oks)

/-- The number of interrupt handlers registered for `fd`. -/
def handlersFor (p : Proc) (fd : Nat) : Nat :=
  (p.handlers.filter (fun h => h.1 == fd)).length

/-- A process whose stdin is a console input buffer (device 0, mode 0x1f7) and
whose stdout and stderr are one console screen buffer (device 1, mode 3); no
call issued, no handler registered. -/
def console : Proc :=
  { world := { dev := fun fd => if fd = 0 then some 0 else some 1,
               cfg := fun d => if d = 0 then 0x1f7 else 3,
               log := [] },
    vtInputSupported := false,
    handlers := [] }

/-- The process `console` after stdin has been put in raw mode (0x1f0) and
the snapshot 0x1f7 armed with `restoreAtInterrupt`. -/
def armedRaw : Proc :=
  restoreAtInterrupt
    { world := { dev := fun fd => if fd = 0 then some 0 else some 1,
                 cfg := fun d => if d = 0 then 0x1f0 else 3,
                 log := [] },
      vtInputSupported := false,
      handlers := [] }
    stdinFd (some { mode := 0x1f7 })

/-- The same process with stdin redirected from a file. -/
def redirected : Proc :=
  { world := { dev := fun fd => if fd = 0 then none else some 1,
               cfg := fun d => if d = 0 then 0x1f7 else 3,
               log := [] },
    vtInputSupported := false,
    handlers := [] }

/-- A host that accepts every mode on a console; raw input clears the echo,
line and processed input bits. -/
def accepting : Host :=
  { accept := fun _ _ _ => true
    onReject := fun _ _ c => c
    toRawInput := fun m => andNot m 0x7
    rcCloseOk := fun _ => true
    duplicateOk := fun _ => true }

/-- A host on which `rc.Close()` has the outcome `rr` and a configuration
call on stderr, stdout, stdin has the outcome `re`, `ro`, `ri`; a rejected call
leaves the mode as it was. -/
def deciding (rr re ro ri : Bool) : Host :=
  { accept := fun _ fd _ => if fd = stderrFd then re else if fd = stdoutFd then ro else ri
    onReject := fun w fd _ => match w.dev fd with | none => 0 | some d => w.cfg d
    toRawInput := fun m => andNot m 0x7
    rcCloseOk := fun _ => rr
    duplicateOk := fun _ => true }

end Windows

/-! ## Lemmas on the system calls -/

namespace Term

theorem setCfg_dev {Cfg : Type} (K : Platform Cfg) (w : World Cfg) (fd : Nat) (c : Cfg) :
    (setCfg K w fd c).1.dev = w.dev := by
  unfold setCfg
  split
  · rfl
  · split <;> rfl

theorem setCfg_log {Cfg : Type} (K : Platform Cfg) (w : World Cfg) (fd : Nat) (c : Cfg) :
    (setCfg K w fd c).1.log = w.log ++ [Event.set fd c (setCfg K w fd c).2] := by
  unfold setCfg
  split
  · rfl
  · split <;> rfl

theorem setCfg_cfg_of_ok {Cfg : Type} (K : Platform Cfg) (w : World Cfg) (fd d : Nat) (c : Cfg)
    (hd : w.dev fd = some d) (hok : (setCfg K w fd c).2 = true) :
    (setCfg K w fd c).1.cfg d = c := by
  unfold setCfg at hok ⊢
  rw [hd] at hok ⊢
  by_cases h : K.accept w fd c = true
  · simp [h]
  · simp [h] at hok

theorem setCfg_ok_iff {Cfg : Type} (K : Platform Cfg) (w : World Cfg) (fd d : Nat) (c : Cfg)
    (hd : w.dev fd = some d) :
    (setCfg K w fd c).2 = K.accept w fd c := by
  unfold setCfg
  rw [hd]
  by_cases h : K.accept w fd c = true
  · simp [h]
  · simp [h]

theorem setCfg_not_terminal {Cfg : Type} (K : Platform Cfg) (w : World Cfg) (fd : Nat) (c : Cfg)
    (hd : w.dev fd = none) :
    (setCfg K w fd c).2 = false := by
  unfold setCfg
  rw [hd]

end Term

namespace Unix

open Term

theorem tcset_log (K : Platform Termios) (w : World Termios) (fd : Nat) (p : Termios) :
    (tcset K w fd p).1.log = w.log ++ [Event.set fd p (tcset K w fd p).2.isNone] := by
  have h := setCfg_log K w fd p
  unfold tcset
  rcases hs : setCfg K w fd p with ⟨w', ok⟩
  rw [hs] at h
  cases ok <;> simpa using h

theorem restoreSlot_spec_unix (K : Platform Termios) (w : World Termios) (fd : Nat)
    (slot : Option State) :
    ∃ ok : Bool, (restoreSlot K w fd slot).1.log = w.log ++ restoreTrace fd slot ok ∧
      (restoreSlot K w fd slot).2 = slotAfter slot ok := by
  cases slot with
  | none => exact ⟨true, by simp [restoreSlot, restoreTrace], rfl⟩
  | some st =>
    have h := tcset_log K w fd st.termios
    simp only [restoreSlot, restoreTerminal, restoreTrace, slotAfter]
    rcases hs : tcset K w fd st.termios with ⟨w', err⟩
    rw [hs] at h
    cases err with
    | none => exact ⟨true, by simpa using h, by simp⟩
    | some e => exact ⟨false, by simpa using h, by simp⟩

theorem restoreSlot_none (K : Platform Termios) (w : World Termios) (fd : Nat) :
    restoreSlot K w fd none = (w, none) := rfl

theorem Close_absent_unix (K : Platform Termios) (w : World Termios) (s : IOE)
    (hi : s.i = none) (ho : s.o = none) (he : s.e = none) :
    Close K w (some s) = (w, some s) := by
  cases s with
  | mk i o e rc =>
    simp only at hi ho he
    subst hi ho he
    rfl

theorem closeN_absent_unix (K : Platform Termios) (n : Nat) (w : World Termios) (s : IOE)
    (hi : s.i = none) (ho : s.o = none) (he : s.e = none) :
    closeN K n w (some s) = (w, some s) := by
  induction n with
  | zero => rfl
  | succ n ih => simp only [closeN, Close_absent_unix K w s hi ho he, ih]

theorem closeN_nil (K : Platform Termios) (n : Nat) (w : World Termios) :
    closeN K n w none = (w, none) := by
  induction n with
  | zero => rfl
  | succ n ih => simp only [closeN, Close, ih]

end Unix
namespace Unix

open Term

theorem Close_spec_unix (K : Platform Termios) (w : World Termios) (s : IOE) :
    ∃ re ro ri : Bool,
      (Close K w (some s)).1.log =
          w.log ++ restoreTrace stderrFd s.e re ++ restoreTrace stdoutFd s.o ro
            ++ restoreTrace stdinFd s.i ri ∧
      (Close K w (some s)).2 =
          some { i := slotAfter s.i ri, o := slotAfter s.o ro, e := slotAfter s.e re,
                 rc := s.rc } := by
  obtain ⟨re, hle, hse⟩ := restoreSlot_spec_unix K w stderrFd s.e
  obtain ⟨ro, hlo, hso⟩ := restoreSlot_spec_unix K (restoreSlot K w stderrFd s.e).1 stdoutFd s.o
  obtain ⟨ri, hli, hsi⟩ := restoreSlot_spec_unix K
    (restoreSlot K (restoreSlot K w stderrFd s.e).1 stdoutFd s.o).1 stdinFd s.i
  refine ⟨re, ro, ri, ?_, ?_⟩
  · simp only [Close]
    rw [hli, hlo, hle]
  · simp only [Close]
    rw [hsi, hso, hse]

end Unix

namespace Windows

open Term

theorem SetConsoleMode_log (K : Host) (p : Proc) (fd mode : Nat) :
    (SetConsoleMode K p fd mode).1.world.log =
      p.world.log ++ [Event.set fd mode (SetConsoleMode K p fd mode).2] := by
  simpa [SetConsoleMode] using setCfg_log K.toPlatform p.world fd mode

theorem SetConsoleMode_dev (K : Host) (p : Proc) (fd mode : Nat) :
    (SetConsoleMode K p fd mode).1.world.dev = p.world.dev := by
  simpa [SetConsoleMode] using setCfg_dev K.toPlatform p.world fd mode

theorem SetConsoleMode_handlers (K : Host) (p : Proc) (fd mode : Nat) :
    (SetConsoleMode K p fd mode).1.handlers = p.handlers := rfl

theorem SetConsoleMode_vt (K : Host) (p : Proc) (fd mode : Nat) :
    (SetConsoleMode K p fd mode).1.vtInputSupported = p.vtInputSupported := rfl

theorem SetConsoleMode_cfg_of_ok (K : Host) (p : Proc) (fd d mode : Nat)
    (hd : p.world.dev fd = some d) (hok : (SetConsoleMode K p fd mode).2 = true) :
    (SetConsoleMode K p fd mode).1.world.cfg d = mode := by
  have h := setCfg_cfg_of_ok K.toPlatform p.world fd d mode hd
  simp only [SetConsoleMode] at hok ⊢
  exact h hok

theorem SetConsoleMode_ok (K : Host) (p : Proc) (fd d mode : Nat)
    (hd : p.world.dev fd = some d) :
    (SetConsoleMode K p fd mode).2 = K.accept p.world fd mode := by
  simpa [SetConsoleMode] using setCfg_ok_iff K.toPlatform p.world fd d mode hd

theorem restoreSlot_spec_windows (K : Host) (p : Proc) (fd : Nat) (slot : Option State) :
    ∃ (ok : Bool) (p' : Proc), restoreSlot K p fd slot = some (p', slotAfter slot ok) ∧
      p'.world.log = p.world.log ++ restoreTrace fd slot ok ∧
      p'.world.dev = p.world.dev ∧ p'.handlers = p.handlers ∧
      p'.vtInputSupported = p.vtInputSupported ∧
      (ok = true → ∀ st d, slot = some st → p.world.dev fd = some d →
        p'.world.cfg d = st.mode) := by
  cases slot with
  | none => exact ⟨true, p, rfl, by simp [restoreTrace], rfl, rfl, rfl, by simp⟩
  | some st =>
    have hl := SetConsoleMode_log K p fd st.mode
    have hd := SetConsoleMode_dev K p fd st.mode
    have hc := SetConsoleMode_cfg_of_ok K p fd
    simp only [restoreSlot, restoreTerminal, restoreTrace, slotAfter]
    rcases hs : SetConsoleMode K p fd st.mode with ⟨p', ok⟩
    have hh : p'.handlers = p.handlers := by
      have := SetConsoleMode_handlers K p fd st.mode
      rw [hs] at this; exact this
    have hv : p'.vtInputSupported = p.vtInputSupported := by
      have := SetConsoleMode_vt K p fd st.mode
      rw [hs] at this; exact this
    rw [hs] at hl hd
    cases ok with
    | true =>
      refine ⟨true, p', by simp, by simpa using hl, hd, hh, hv, ?_⟩
      intro _ st' d hst hdev
      have := hc d st.mode hdev (by rw [hs])
      rw [hs] at this
      simp only [Option.some.injEq] at hst
      subst hst
      exact this
    | false =>
      exact ⟨false, p', by simp, by simpa using hl, hd, hh, hv, by simp⟩

theorem closeReader_spec (K : Host) (p : Proc) (rc : Option ReadCloser) :
    ∃ ok : Bool, (closeReader K p rc).2 = readerAfter rc ok ∧
      (closeReader K p rc).1.world.log = p.world.log ++ readerTrace rc ok ∧
      (closeReader K p rc).1.world.dev = p.world.dev ∧
      (closeReader K p rc).1.world.cfg = p.world.cfg ∧
      (closeReader K p rc).1.handlers = p.handlers := by
  cases rc with
  | none => exact ⟨true, rfl, by simp [closeReader, readerTrace], rfl, rfl, rfl⟩
  | some r =>
    refine ⟨K.rcCloseOk p.world, ?_⟩
    simp only [closeReader, readerAfter, readerTrace]
    split <;> simp_all

theorem Close_spec_windows (K : Host) (p : Proc) (s : IOE) :
    ∃ (rr re ro ri : Bool) (p' : Proc),
      Close K p (some s) =
        some (p', some { i := slotAfter s.i ri, o := slotAfter s.o ro,
                         e := slotAfter s.e re, rc := readerAfter s.rc rr }) ∧
      p'.world.log =
        p.world.log ++ readerTrace s.rc rr ++ restoreTrace stderrFd s.e re
          ++ restoreTrace stdoutFd s.o ro ++ restoreTrace stdinFd s.i ri ∧
      p'.world.dev = p.world.dev ∧ p'.handlers = p.handlers := by
  obtain ⟨rr, hr2, hrl, hrd, _, hrh⟩ := closeReader_spec K p s.rc
  obtain ⟨re, p1, he, hel, hed, heh, _, _⟩ :=
    restoreSlot_spec_windows K (closeReader K p s.rc).1 stderrFd s.e
  obtain ⟨ro, p2, ho, hol, hod, hoh, _, _⟩ := restoreSlot_spec_windows K p1 stdoutFd s.o
  obtain ⟨ri, p3, hi, hil, hid, hih, _, _⟩ := restoreSlot_spec_windows K p2 stdinFd s.i
  refine ⟨rr, re, ro, ri, p3, ?_, ?_, ?_, ?_⟩
  · simp only [Close, he, ho, hi, hr2]
  · rw [hil, hol, hel, hrl]
  · rw [hid, hod, hed, hrd]
  · rw [hih, hoh, heh, hrh]

end Windows
namespace Windows

open Term

theorem Close_absent_windows (K : Host) (p : Proc) (s : IOE)
    (h : pending (some s) = false) : Close K p (some s) = some (p, some s) := by
  cases s with
  | mk i o e rc =>
    cases i <;> cases o <;> cases e <;> cases rc <;>
      first | rfl | (simp [pending] at h)

theorem closeN_absent_windows (K : Host) (n : Nat) (p : Proc) (s : Option IOE)
    (h : pending s = false) : closeN K n p s = some (p, s) := by
  induction n with
  | zero => rfl
  | succ n ih =>
    cases s with
    | none => simp only [closeN, Close, ih]
    | some s => simp only [closeN, Close_absent_windows K p s h, ih]

theorem Close_total (K : Host) (p : Proc) (s : Option IOE) :
    ∃ p' s', Close K p s = some (p', s') := by
  cases s with
  | none => exact ⟨p, none, rfl⟩
  | some s =>
    obtain ⟨rr, re, ro, ri, p', h, _⟩ := Close_spec_windows K p s
    exact ⟨p', _, h⟩

end Windows

namespace Unix

open Term

theorem closeN_restored (K : Platform Termios) (n : Nat) (w : World Termios)
    (s : Option IOE) (h : pending s = false) : closeN K n w s = (w, s) := by
  cases s with
  | none => exact closeN_nil K n w
  | some s =>
    cases s with
    | mk i o e rc =>
      cases i <;> cases o <;> cases e <;>
        first | exact closeN_absent_unix K n w _ rfl rfl rfl | (simp [pending] at h)

end Unix

namespace Unix

open Term

theorem isTerminal_false_iff_unix (w : World Termios) (fd : Nat) :
    isTerminal w fd = false ↔ w.dev fd = none := by
  unfold isTerminal tcget getCfg
  cases h : w.dev fd <;> simp

theorem NewIOE_not_terminal (K : Platform Termios) (w : World Termios)
    (h : isTerminal w stdinFd = false) :
    NewIOE K w = (w, { i := none, o := none, e := none, rc := some ReadCloser.osStdin }) := by
  rw [isTerminal_false_iff_unix] at h
  simp [NewIOE, setRawTerminal, makeRaw, saveState, tcget, getCfg, h, setRawTerminalOutput]

end Unix

namespace Windows

open Term

theorem isTerminal_false_iff_windows (p : Proc) (fd : Nat) :
    isTerminal p fd = false ↔ p.world.dev fd = none := by
  unfold isTerminal GetConsoleMode getCfg
  cases h : p.world.dev fd <;> simp

theorem isTerminal_true_iff (p : Proc) (fd : Nat) :
    isTerminal p fd = true ↔ ∃ d, p.world.dev fd = some d := by
  unfold isTerminal GetConsoleMode getCfg
  cases h : p.world.dev fd <;> simp

theorem GetConsoleMode_of_dev (p : Proc) (fd d : Nat) (h : p.world.dev fd = some d) :
    GetConsoleMode p fd = some (p.world.cfg d) := by
  simp [GetConsoleMode, getCfg, h]

theorem GetConsoleMode_none (p : Proc) (fd : Nat) (h : p.world.dev fd = none) :
    GetConsoleMode p fd = none := by
  simp [GetConsoleMode, getCfg, h]

theorem probeStdin_frame (K : Host) (p : Proc) :
    (stdStreams.probeStdin K p).1.world.dev = p.world.dev ∧
    (stdStreams.probeStdin K p).1.handlers = p.handlers := by
  unfold stdStreams.probeStdin
  cases hg : GetConsoleMode p stdinFd with
  | none => exact ⟨rfl, rfl⟩
  | some mode =>
    have hd := SetConsoleMode_dev K p stdinFd (mode ||| ENABLE_VIRTUAL_TERMINAL_INPUT)
    rcases hs : SetConsoleMode K p stdinFd (mode ||| ENABLE_VIRTUAL_TERMINAL_INPUT)
      with ⟨p1, ok⟩
    rw [hs] at hd
    have hh : p1.handlers = p.handlers := by
      have := SetConsoleMode_handlers K p stdinFd (mode ||| ENABLE_VIRTUAL_TERMINAL_INPUT)
      rw [hs] at this; exact this
    cases ok with
    | false =>
      simp only [hs]
      exact ⟨by rw [SetConsoleMode_dev]; exact hd, by rw [SetConsoleMode_handlers, hh]⟩
    | true =>
      simp only [hs]
      exact ⟨by rw [SetConsoleMode_dev]; exact hd, by rw [SetConsoleMode_handlers]; exact hh⟩

theorem probeOutput_frame (K : Host) (p : Proc) (fd : Nat) :
    (stdStreams.probeOutput K p fd).1.world.dev = p.world.dev ∧
    (stdStreams.probeOutput K p fd).1.handlers = p.handlers ∧
    (stdStreams.probeOutput K p fd).1.vtInputSupported = p.vtInputSupported := by
  unfold stdStreams.probeOutput
  cases hg : GetConsoleMode p fd with
  | none => exact ⟨rfl, rfl, rfl⟩
  | some mode =>
    have hd := SetConsoleMode_dev K p fd
      (mode ||| ENABLE_VIRTUAL_TERMINAL_PROCESSING ||| DISABLE_NEWLINE_AUTO_RETURN)
    rcases hs : SetConsoleMode K p fd
      (mode ||| ENABLE_VIRTUAL_TERMINAL_PROCESSING ||| DISABLE_NEWLINE_AUTO_RETURN)
      with ⟨p1, ok⟩
    rw [hs] at hd
    have hh : p1.handlers = p.handlers := by
      have := SetConsoleMode_handlers K p fd
        (mode ||| ENABLE_VIRTUAL_TERMINAL_PROCESSING ||| DISABLE_NEWLINE_AUTO_RETURN)
      rw [hs] at this; exact this
    have hv : p1.vtInputSupported = p.vtInputSupported := by
      have := SetConsoleMode_vt K p fd
        (mode ||| ENABLE_VIRTUAL_TERMINAL_PROCESSING ||| DISABLE_NEWLINE_AUTO_RETURN)
      rw [hs] at this; exact this
    cases ok with
    | false =>
      simp only [hs]
      exact ⟨hd, hh, hv⟩
    | true =>
      simp only [hs]
      exact ⟨by rw [SetConsoleMode_dev]; exact hd, by rw [SetConsoleMode_handlers, hh],
        by rw [SetConsoleMode_vt, hv]⟩

theorem stdStreams_world (K : Host) (p : Proc) :
    (stdStreams K p).1 =
      (stdStreams.probeOutput K
        (stdStreams.probeOutput K (stdStreams.probeStdin K p).1 stdoutFd).1 stderrFd).1 := rfl

theorem stdStreams_frame (K : Host) (p : Proc) :
    (stdStreams K p).1.world.dev = p.world.dev ∧
    (stdStreams K p).1.handlers = p.handlers := by
  rw [stdStreams_world]
  obtain ⟨h1, h1'⟩ := probeStdin_frame K p
  obtain ⟨h2, h2', _⟩ := probeOutput_frame K (stdStreams.probeStdin K p).1 stdoutFd
  obtain ⟨h3, h3', _⟩ := probeOutput_frame K
    (stdStreams.probeOutput K (stdStreams.probeStdin K p).1 stdoutFd).1 stderrFd
  exact ⟨by rw [h3, h2, h1], by rw [h3', h2', h1']⟩

theorem setRawTerminal_not_terminal (K : Host) (p : Proc) (fd : Nat)
    (h : p.world.dev fd = none) :
    setRawTerminal K p fd = (p, none, some Error.syscall) := by
  simp [setRawTerminal, MakeRaw, saveState, GetConsoleMode_none p fd h]

theorem setRawTerminalOutput_terminal (K : Host) (p : Proc) (fd d : Nat)
    (h : p.world.dev fd = some d) :
    setRawTerminalOutput K p fd =
      ((SetConsoleMode K p fd (p.world.cfg d ||| DISABLE_NEWLINE_AUTO_RETURN)).1,
        some { mode := p.world.cfg d }, none) := by
  simp [setRawTerminalOutput, saveState, GetConsoleMode_of_dev p fd d h]

theorem setRawTerminalOutput_frame (K : Host) (p : Proc) (fd : Nat) :
    (setRawTerminalOutput K p fd).1.world.dev = p.world.dev ∧
    (setRawTerminalOutput K p fd).1.handlers = p.handlers := by
  unfold setRawTerminalOutput saveState
  cases hg : GetConsoleMode p fd with
  | none => exact ⟨rfl, rfl⟩
  | some mode =>
    simp only
    exact ⟨SetConsoleMode_dev K p fd _, rfl⟩

theorem NewIOE_redirected (K : Host) (p : Proc) (d : Nat)
    (hin : p.world.dev stdinFd = none) (hout : p.world.dev stdoutFd = some d) :
    (NewIOE K p).2.i = none ∧
    (NewIOE K p).2.o = some { mode := (stdStreams K p).1.world.cfg d } ∧
    (NewIOE K p).1.world.dev = p.world.dev := by
  have hf := (stdStreams_frame K p).1
  have hin0 : (stdStreams K p).1.world.dev stdinFd = none := by rw [hf]; exact hin
  have hout0 : (stdStreams K p).1.world.dev stdoutFd = some d := by rw [hf]; exact hout
  have hraw := setRawTerminal_not_terminal K (stdStreams K p).1 stdinFd hin0
  have ho := setRawTerminalOutput_terminal K (stdStreams K p).1 stdoutFd d hout0
  have hfo := (setRawTerminalOutput_frame K (stdStreams K p).1 stdoutFd).1
  have hfe := (setRawTerminalOutput_frame K
    (setRawTerminalOutput K (stdStreams K p).1 stdoutFd).1 stderrFd).1
  refine ⟨?_, ?_, ?_⟩
  · simp only [NewIOE, hraw]
  · simp only [NewIOE, hraw, ho]
  · simp only [NewIOE, hraw]
    rw [hfe, hfo, hf]

end Windows
namespace Term

theorem testBit_andNot (x y i : Nat) :
    (andNot x y).testBit i = (x.testBit i && !(y.testBit i)) := by
  unfold andNot
  rw [Nat.testBit_xor, Nat.testBit_and]
  cases x.testBit i <;> cases y.testBit i <;> rfl

theorem andNot_lt_two_pow (x y n : Nat) (h : x < 2 ^ n) : andNot x y < 2 ^ n := by
  unfold andNot
  exact Nat.xor_lt_two_pow h (lt_of_le_of_lt Nat.and_le_left h)

end Term

namespace Windows

open Term

theorem probeStdin_spec (K : Host) (p : Proc) (m : Nat)
    (hg : GetConsoleMode p stdinFd = some m) :
    ∃ ok ok2 : Bool,
      (stdStreams.probeStdin K p).1.world.log =
        p.world.log ++ [Event.set stdinFd (m ||| ENABLE_VIRTUAL_TERMINAL_INPUT) ok,
          Event.set stdinFd m ok2] ∧
      (stdStreams.probeStdin K p).2 = !ok ∧
      (stdStreams.probeStdin K p).1.vtInputSupported = (p.vtInputSupported || ok) ∧
      ok = (SetConsoleMode K p stdinFd (m ||| ENABLE_VIRTUAL_TERMINAL_INPUT)).2 ∧
      (ok2 = true → GetConsoleMode (stdStreams.probeStdin K p).1 stdinFd = some m) := by
  have hdev : ∃ d, p.world.dev stdinFd = some d := by
    rw [← isTerminal_true_iff]
    simp [isTerminal, hg]
  obtain ⟨d, hd⟩ := hdev
  have hl1 := SetConsoleMode_log K p stdinFd (m ||| ENABLE_VIRTUAL_TERMINAL_INPUT)
  have hd1 := SetConsoleMode_dev K p stdinFd (m ||| ENABLE_VIRTUAL_TERMINAL_INPUT)
  simp only [stdStreams.probeStdin, hg]
  rcases hs : SetConsoleMode K p stdinFd (m ||| ENABLE_VIRTUAL_TERMINAL_INPUT) with ⟨p1, ok⟩
  rw [hs] at hl1 hd1
  simp only at hl1 hd1
  have hv1 : p1.vtInputSupported = p.vtInputSupported := by
    have := SetConsoleMode_vt K p stdinFd (m ||| ENABLE_VIRTUAL_TERMINAL_INPUT)
    rw [hs] at this; exact this
  cases ok with
  | false =>
    refine ⟨false, (SetConsoleMode K p1 stdinFd m).2, ?_, rfl, ?_, rfl, ?_⟩
    · simp only [SetConsoleMode_log, hl1, List.append_assoc, List.singleton_append]
    · simp only [SetConsoleMode_vt, hv1, Bool.or_false]
    · intro h2
      have hd2 : p1.world.dev stdinFd = some d := by rw [hd1]; exact hd
      have hdd : (SetConsoleMode K p1 stdinFd m).1.world.dev stdinFd = some d := by
        rw [SetConsoleMode_dev]; exact hd2
      simp only
      rw [GetConsoleMode_of_dev _ _ d hdd, SetConsoleMode_cfg_of_ok K p1 stdinFd d m hd2 h2]
  | true =>
    refine ⟨true,
      (SetConsoleMode K { p1 with vtInputSupported := true } stdinFd m).2, ?_, rfl, ?_, rfl, ?_⟩
    · simp only [SetConsoleMode_log, hl1, List.append_assoc, List.singleton_append]
    · simp only [SetConsoleMode_vt, Bool.or_true]
    · intro h2
      have hd2 : ({ p1 with vtInputSupported := true } : Proc).world.dev stdinFd = some d := by
        show p1.world.dev stdinFd = some d
        rw [hd1]; exact hd
      have hdd : (SetConsoleMode K { p1 with vtInputSupported := true } stdinFd m).1.world.dev
          stdinFd = some d := by
        rw [SetConsoleMode_dev]; exact hd2
      simp only
      rw [GetConsoleMode_of_dev _ _ d hdd,
        SetConsoleMode_cfg_of_ok K _ stdinFd d m hd2 h2]

theorem probeOutput_spec (K : Host) (p : Proc) (fd m : Nat)
    (hg : GetConsoleMode p fd = some m) :
    ∃ ok : Bool,
      ok = (SetConsoleMode K p fd
        (m ||| ENABLE_VIRTUAL_TERMINAL_PROCESSING ||| DISABLE_NEWLINE_AUTO_RETURN)).2 ∧
      (stdStreams.probeOutput K p fd).2 = !ok ∧
      (ok = false →
        (stdStreams.probeOutput K p fd).1.world.log =
          p.world.log ++ [Event.set fd
            (m ||| ENABLE_VIRTUAL_TERMINAL_PROCESSING ||| DISABLE_NEWLINE_AUTO_RETURN) false]) ∧
      (ok = true → ∃ ok2 : Bool,
        (stdStreams.probeOutput K p fd).1.world.log =
          p.world.log ++ [Event.set fd
            (m ||| ENABLE_VIRTUAL_TERMINAL_PROCESSING ||| DISABLE_NEWLINE_AUTO_RETURN) true,
            Event.set fd (m ||| ENABLE_VIRTUAL_TERMINAL_PROCESSING) ok2] ∧
        (ok2 = true → GetConsoleMode (stdStreams.probeOutput K p fd).1 fd =
          some (m ||| ENABLE_VIRTUAL_TERMINAL_PROCESSING))) := by
  have hdev : ∃ d, p.world.dev fd = some d := by
    rw [← isTerminal_true_iff]
    simp [isTerminal, hg]
  obtain ⟨d, hd⟩ := hdev
  have hl1 := SetConsoleMode_log K p fd
    (m ||| ENABLE_VIRTUAL_TERMINAL_PROCESSING ||| DISABLE_NEWLINE_AUTO_RETURN)
  have hd1 := SetConsoleMode_dev K p fd
    (m ||| ENABLE_VIRTUAL_TERMINAL_PROCESSING ||| DISABLE_NEWLINE_AUTO_RETURN)
  simp only [stdStreams.probeOutput, hg]
  rcases hs : SetConsoleMode K p fd
    (m ||| ENABLE_VIRTUAL_TERMINAL_PROCESSING ||| DISABLE_NEWLINE_AUTO_RETURN) with ⟨p1, ok⟩
  rw [hs] at hl1 hd1
  simp only at hl1 hd1
  cases ok with
  | false =>
    refine ⟨false, rfl, rfl, fun _ => hl1, fun h => ?_⟩
    simp at h
  | true =>
    refine ⟨true, rfl, rfl, fun h => ?_, fun _ => ?_⟩
    · simp at h
    · refine ⟨(SetConsoleMode K p1 fd (m ||| ENABLE_VIRTUAL_TERMINAL_PROCESSING)).2, ?_, ?_⟩
      · simp only [SetConsoleMode_log, hl1, List.append_assoc, List.singleton_append]
      · intro h2
        have hd2 : p1.world.dev fd = some d := by rw [hd1]; exact hd
        have hdd : (SetConsoleMode K p1 fd
            (m ||| ENABLE_VIRTUAL_TERMINAL_PROCESSING)).1.world.dev fd = some d := by
          rw [SetConsoleMode_dev]; exact hd2
        simp only
        rw [GetConsoleMode_of_dev _ _ d hdd, SetConsoleMode_cfg_of_ok K p1 fd d _ hd2 h2]

theorem probeStdin_not_console (K : Host) (p : Proc)
    (hg : GetConsoleMode p stdinFd = none) : stdStreams.probeStdin K p = (p, false) := by
  simp only [stdStreams.probeStdin, hg]

theorem probeOutput_not_console (K : Host) (p : Proc) (fd : Nat)
    (hg : GetConsoleMode p fd = none) : stdStreams.probeOutput K p fd = (p, false) := by
  simp only [stdStreams.probeOutput, hg]

theorem probeStdin_flag (K : Host) (p : Proc) :
    (stdStreams.probeStdin K p).2 = true ↔
      ∃ m, GetConsoleMode p stdinFd = some m ∧
        (SetConsoleMode K p stdinFd (m ||| ENABLE_VIRTUAL_TERMINAL_INPUT)).2 = false := by
  cases hg : GetConsoleMode p stdinFd with
  | none => simp [probeStdin_not_console K p hg]
  | some m =>
    obtain ⟨ok, ok2, _, h2, _, hok, _⟩ := probeStdin_spec K p m hg
    rw [h2]
    constructor
    · intro h
      exact ⟨m, rfl, by rw [← hok]; simpa using h⟩
    · rintro ⟨m', hm, h⟩
      simp only [Option.some.injEq] at hm
      subst hm
      rw [← hok] at h
      simp [h]

theorem probeOutput_flag (K : Host) (p : Proc) (fd : Nat) :
    (stdStreams.probeOutput K p fd).2 = true ↔
      ∃ m, GetConsoleMode p fd = some m ∧
        (SetConsoleMode K p fd
          (m ||| ENABLE_VIRTUAL_TERMINAL_PROCESSING ||| DISABLE_NEWLINE_AUTO_RETURN)).2
          = false := by
  cases hg : GetConsoleMode p fd with
  | none => simp [probeOutput_not_console K p fd hg]
  | some m =>
    obtain ⟨ok, hok, h2, _, _⟩ := probeOutput_spec K p fd m hg
    rw [h2]
    constructor
    · intro h
      exact ⟨m, rfl, by rw [← hok]; simpa using h⟩
    · rintro ⟨m', hm, h⟩
      simp only [Option.some.injEq] at hm
      subst hm
      rw [← hok] at h
      simp [h]

theorem stdStreams_streams (K : Host) (p : Proc) :
    (stdStreams K p).2 =
      (if (stdStreams.probeStdin K p).2 then ReadCloser.ansiReader STD_INPUT_HANDLE
        else ReadCloser.osStdin,
       if (stdStreams.probeOutput K (stdStreams.probeStdin K p).1 stdoutFd).2
        then Writer.ansiWriter STD_OUTPUT_HANDLE else Writer.osStdout,
       if (stdStreams.probeOutput K
          (stdStreams.probeOutput K (stdStreams.probeStdin K p).1 stdoutFd).1 stderrFd).2
        then Writer.ansiWriter STD_ERROR_HANDLE else Writer.osStderr) := rfl

end Windows
namespace Term

end Term

namespace Windows

open Term

theorem handlersFor_append (p : Proc) (fd fd' : Nat) (st : Option State) :
    handlersFor (restoreAtInterrupt p fd' st) fd =
      handlersFor p fd + (if fd' = fd then 1 else 0) := by
  unfold handlersFor restoreAtInterrupt
  by_cases h : fd' = fd
  · simp [List.filter_append, h]
  · simp [List.filter_append, h]

theorem arm_spec (K : Host) (p : Proc) (op : ArmOp) :
    ∃ (p' : Proc) (ok : Bool), arm K p op = some (p', ok) ∧
      (∃ added, p'.handlers = p.handlers ++ added) ∧
      ∀ fd, handlersFor p' fd = handlersFor p fd + (if ok = true ∧ op.fd = fd then 1 else 0) := by
  cases op with
  | setRaw fd0 =>
    simp only [arm, setRawTerminal, MakeRaw, ArmOp.fd]
    cases hsv : saveState p fd0 with
    | error e => exact ⟨p, false, rfl, ⟨[], by simp⟩, by simp⟩
    | ok old =>
      simp only
      rcases hs : SetConsoleMode K p fd0 (K.toRawInput old.mode) with ⟨p1, ok⟩
      have hh : p1.handlers = p.handlers := by
        have := SetConsoleMode_handlers K p fd0 (K.toRawInput old.mode)
        rw [hs] at this; exact this
      have hf : ∀ fd, handlersFor p1 fd = handlersFor p fd := by
        intro fd; unfold handlersFor; rw [hh]
      cases ok with
      | false => exact ⟨p1, false, rfl, ⟨[], by simp [hh]⟩, by simp [hf]⟩
      | true =>
        refine ⟨restoreAtInterrupt p1 fd0 (some old), true, rfl,
          ⟨[(fd0, some old)], by simp [restoreAtInterrupt, hh]⟩, ?_⟩
        intro fd
        rw [handlersFor_append, hf]
        simp
  | echoOff fd0 st =>
    simp only [arm, disableEcho, ArmOp.fd]
    rcases hs : SetConsoleMode K p fd0
      (andNot st.mode ENABLE_ECHO_INPUT ||| (ENABLE_PROCESSED_INPUT ||| ENABLE_LINE_INPUT))
      with ⟨p1, ok⟩
    have hh : p1.handlers = p.handlers := by
      have := SetConsoleMode_handlers K p fd0
        (andNot st.mode ENABLE_ECHO_INPUT ||| (ENABLE_PROCESSED_INPUT ||| ENABLE_LINE_INPUT))
      rw [hs] at this; exact this
    have hf : ∀ fd, handlersFor p1 fd = handlersFor p fd := by
      intro fd; unfold handlersFor; rw [hh]
    cases ok with
    | false => exact ⟨p1, false, rfl, ⟨[], by simp [hh]⟩, by simp [hf]⟩
    | true =>
      refine ⟨restoreAtInterrupt p1 fd0 (some st), true, rfl,
        ⟨[(fd0, some st)], by simp [restoreAtInterrupt, hh]⟩, ?_⟩
      intro fd
      rw [handlersFor_append, hf]
      simp

theorem armAll_spec (K : Host) (ops : List ArmOp) :
    ∀ p : Proc, ∃ (p' : Proc) (oks : List (Nat × Bool)),
      armAll K p ops = some (p', oks) ∧
      oks.map (fun r => r.1) = ops.map ArmOp.fd ∧
      (∃ added, p'.handlers = p.handlers ++ added) ∧
      ∀ fd, handlersFor p' fd = handlersFor p fd + oks.count (fd, true) := by
  induction ops with
  | nil => intro p; exact ⟨p, [], rfl, rfl, ⟨[], by simp⟩, by simp⟩
  | cons op ops ih =>
    intro p
    obtain ⟨p1, ok, h1, ⟨a1, ha1⟩, hc1⟩ := arm_spec K p op
    obtain ⟨p2, oks, h2, hm, ⟨a2, ha2⟩, hc2⟩ := ih p1
    refine ⟨p2, (op.fd, ok) :: oks, ?_, ?_, ⟨a1 ++ a2, ?_⟩, ?_⟩
    · simp only [armAll, h1, h2]
    · simp [hm]
    · rw [ha2, ha1, List.append_assoc]
    · intro fd
      rw [hc2, hc1, List.count_cons]
      by_cases h : ok = true ∧ op.fd = fd
      · obtain ⟨rfl, rfl⟩ := h
        simp
        omega
      · have : ((op.fd, ok) == (fd, true)) = false := by
          simp only [beq_eq_false_iff_ne, ne_eq, Prod.mk.injEq, not_and]
          intro hfd hok
          exact h ⟨hok, hfd⟩
        simp [h, this]

theorem interruptHandler_eq (K : Host) (q : Proc) (fd : Nat) (S : State) :
    interruptHandler K q fd (some S) = some (osExit (SetConsoleMode K q fd S.mode).1 0) := by
  simp only [interruptHandler, RestoreTerminal, restoreTerminal]
  rcases SetConsoleMode K q fd S.mode with ⟨q1, ok⟩
  cases ok <;> rfl

theorem exited_osExit (p : Proc) (code : Nat) : exited (osExit p code) = true := by
  simp [exited, osExit, List.any_append]

theorem deliverInterrupt_exited (K : Host) (p : Proc) (j : Nat) (h : exited p = true) :
    deliverInterrupt K p j = some p := by
  unfold deliverInterrupt
  cases hj : p.handlers[j]? with
  | none => rfl
  | some e => simp [h]

end Windows
/-! ## The claims -/

/-- C1, as amended. Idempotent close: for every session (nil included) and
every N ≥ 1, when the first `Close` leaves no slot pending (every restore it
attempted succeeded and, on Windows, `rc.Close()` succeeded or `rc` was nil),
N calls of `Close` leave exactly the world, trace included, and the session
that one call leaves: calls 2..N issue no operation. On Windows `Close`
always returns. -/
theorem close_idempotent_when_restored :
    (∀ (K : Term.Platform Unix.Termios) (w : Term.World Unix.Termios)
        (s : Option Unix.IOE) (n : Nat), 1 ≤ n →
        Unix.pending (Unix.Close K w s).2 = false →
        Unix.closeN K n w s = Unix.Close K w s) ∧
    (∀ (K : Windows.Host) (p : Windows.Proc) (s : Option Windows.IOE) (n : Nat), 1 ≤ n →
        ∃ p' s', Windows.Close K p s = some (p', s') ∧
          (Windows.pending s' = false → Windows.closeN K n p s = some (p', s'))) := by
  constructor
  · intro K w s n hn hp
    obtain ⟨m, rfl⟩ : ∃ m, n = m + 1 := ⟨n - 1, by omega⟩
    simp only [Unix.closeN]
    exact Unix.closeN_restored K m _ _ hp
  · intro K p s n hn
    obtain ⟨m, rfl⟩ : ∃ m, n = m + 1 := ⟨n - 1, by omega⟩
    obtain ⟨p', s', h⟩ := Windows.Close_total K p s
    refine ⟨p', s', h, fun hp => ?_⟩
    simp only [Windows.closeN, h]
    exact Windows.closeN_absent_windows K m p' s' hp

/-- Witness of C1: three calls on a session whose stdin slot is restored by
the first call, and on the Windows session opened on a console that accepts
every call. -/
theorem close_idempotent_when_restored_witness :
    Unix.closeN Unix.accepting 3 Unix.rawWorld (some Unix.rawSession) =
      Unix.Close Unix.accepting Unix.rawWorld (some Unix.rawSession) ∧
    (∃ p' s', Windows.Close Windows.accepting (Windows.NewIOE Windows.accepting Windows.console).1
        (some (Windows.NewIOE Windows.accepting Windows.console).2) = some (p', s') ∧
      (Windows.pending s' = false →
        Windows.closeN Windows.accepting 3 (Windows.NewIOE Windows.accepting Windows.console).1
          (some (Windows.NewIOE Windows.accepting Windows.console).2) = some (p', s'))) :=
  ⟨close_idempotent_when_restored.1 Unix.accepting Unix.rawWorld (some Unix.rawSession) 3
      (by decide) (by decide),
   close_idempotent_when_restored.2 Windows.accepting _ _ 3 (by decide)⟩

/-- Counterexample to C1 as stated: the session `NewIOE` returns on a
terminal, closed while the next configuration call fails once. The first
`Close` fails to restore stdin and keeps the slot; the second `Close` issues
`restoreTerminal` again, which succeeds: the trace, the terminal
configuration and the slot all differ from what one call leaves. -/
theorem close_twice_differs_from_once :
    (Unix.Close Unix.flaky Unix.rawWorld (some Unix.rawSession)).1.log =
      [Term.Event.set 0 Unix.cooked false] ∧
    (Unix.closeN Unix.flaky 2 Unix.rawWorld (some Unix.rawSession)).1.log =
      [Term.Event.set 0 Unix.cooked false, Term.Event.set 0 Unix.cooked true] ∧
    (Unix.Close Unix.flaky Unix.rawWorld (some Unix.rawSession)).1.cfg 0 = Unix.raw ∧
    (Unix.closeN Unix.flaky 2 Unix.rawWorld (some Unix.rawSession)).1.cfg 0 = Unix.cooked ∧
    (Unix.Close Unix.flaky Unix.rawWorld (some Unix.rawSession)).2 = some Unix.rawSession ∧
    (Unix.closeN Unix.flaky 2 Unix.rawWorld (some Unix.rawSession)).2 =
      some { Unix.rawSession with i := none } := by
  refine ⟨by decide, by decide, by decide, by decide, by decide, by decide⟩

/-- C2. Independent restores in close: one `Close` call issues, in the order
stderr, stdout, stdin, exactly one `restoreTerminal` of the held snapshot for
every slot present at entry, whatever the outcomes `re`, `ro`, `ri` of the
attempts, and afterwards a slot is absent when it was absent or its restore
succeeded and holds the same snapshot when its restore failed. On Windows the
block on `rc` comes first and `Close` returns (no panic). Every pattern of
outcomes occurs: for each one there is a platform on which `Close` meets
exactly that pattern. -/
theorem close_restores_each_present_slot :
    (∀ (K : Term.Platform Unix.Termios) (w : Term.World Unix.Termios) (s : Unix.IOE),
      ∃ re ro ri : Bool,
        (Unix.Close K w (some s)).1.log =
            w.log ++ Unix.restoreTrace Term.stderrFd s.e re
              ++ Unix.restoreTrace Term.stdoutFd s.o ro
              ++ Unix.restoreTrace Term.stdinFd s.i ri ∧
        (Unix.Close K w (some s)).2 =
            some { i := Unix.slotAfter s.i ri, o := Unix.slotAfter s.o ro,
                   e := Unix.slotAfter s.e re, rc := s.rc }) ∧
    (∀ (K : Windows.Host) (p : Windows.Proc) (s : Windows.IOE),
      ∃ (rr re ro ri : Bool) (p' : Windows.Proc),
        Windows.Close K p (some s) =
          some (p', some { i := Windows.slotAfter s.i ri, o := Windows.slotAfter s.o ro,
                           e := Windows.slotAfter s.e re,
                           rc := Windows.readerAfter s.rc rr }) ∧
        p'.world.log =
          p.world.log ++ Windows.readerTrace s.rc rr
            ++ Windows.restoreTrace Term.stderrFd s.e re
            ++ Windows.restoreTrace Term.stdoutFd s.o ro
            ++ Windows.restoreTrace Term.stdinFd s.i ri) ∧
    (∀ (s : Unix.IOE) (re ro ri : Bool),
      (Unix.Close (Unix.deciding re ro ri) Unix.ttyWorld (some s)).1.log =
          Unix.restoreTrace Term.stderrFd s.e re ++ Unix.restoreTrace Term.stdoutFd s.o ro
            ++ Unix.restoreTrace Term.stdinFd s.i ri ∧
      (Unix.Close (Unix.deciding re ro ri) Unix.ttyWorld (some s)).2 =
          some { i := Unix.slotAfter s.i ri, o := Unix.slotAfter s.o ro,
                 e := Unix.slotAfter s.e re, rc := s.rc }) ∧
    (∀ (s : Windows.IOE) (rr re ro ri : Bool),
      (Windows.Close (Windows.deciding rr re ro ri) Windows.console (some s)).map
          (fun r => (r.1.world.log, r.2)) =
        some (Windows.readerTrace s.rc rr ++ Windows.restoreTrace Term.stderrFd s.e re
            ++ Windows.restoreTrace Term.stdoutFd s.o ro
            ++ Windows.restoreTrace Term.stdinFd s.i ri,
          some { i := Windows.slotAfter s.i ri, o := Windows.slotAfter s.o ro,
                 e := Windows.slotAfter s.e re, rc := Windows.readerAfter s.rc rr })) := by
  refine ⟨?_, ?_, ?_, ?_⟩
  · intro K w s
    exact Unix.Close_spec_unix K w s
  · intro K p s
    obtain ⟨rr, re, ro, ri, p', h1, h2, _⟩ := Windows.Close_spec_windows K p s
    exact ⟨rr, re, ro, ri, p', h1, h2⟩
  · intro s re ro ri
    rcases s with ⟨i, o, e, rc⟩
    cases i <;> cases o <;> cases e <;> cases re <;> cases ro <;> cases ri <;>
      exact ⟨rfl, rfl⟩
  · intro s rr re ro ri
    rcases s with ⟨i, o, e, rc⟩
    cases i <;> cases o <;> cases e <;> cases rc <;> cases rr <;> cases re <;> cases ro <;>
      cases ri <;> rfl

/-- C9. Restore with an absent snapshot: on Unix `restoreTerminal(fd, nil)`
returns the error "invalid terminal state" and leaves the world, trace
included, unchanged; on Windows `restoreTerminal(fd, nil)` has no nil check and
panics on `state.mode`. -/
theorem restoreTerminal_nil_state :
    (∀ (K : Term.Platform Unix.Termios) (w : Term.World Unix.Termios) (fd : Nat),
      Unix.restoreTerminal K w fd none = (w, some Term.Error.invalidTerminalState)) ∧
    (∀ (K : Windows.Host) (p : Windows.Proc) (fd : Nat),
      Windows.restoreTerminal K p fd none = none) :=
  ⟨fun _ _ _ => rfl, fun _ _ _ => rfl⟩

/-- C3, as amended. Independence under partial failure: whenever stdin is not
a terminal, `NewIOE` still returns a session and its stdin slot is absent. On
Unix the stdout slot is absent as well (`setRawTerminalOutput` takes no
snapshot), `NewIOE` leaves the world untouched and a following `Close` issues
no call at all. On Windows, when stdout is a console, the stdout slot is
present and holds the mode stdout has when the `stdStreams` probe at the
start of `NewIOE` has returned; a following `Close` returns, issues no
configuration call on stdin, ends with the restore of stdout to the held mode
and, when that call succeeds, leaves stdout with that mode and the slot
absent. -/
theorem newIOE_stdin_not_terminal :
    (∀ (K : Term.Platform Unix.Termios) (w : Term.World Unix.Termios),
      Unix.isTerminal w Term.stdinFd = false →
        Unix.NewIOE K w =
          (w, { i := none, o := none, e := none, rc := some Term.ReadCloser.osStdin }) ∧
        Unix.Close K w (some (Unix.NewIOE K w).2) = (w, some (Unix.NewIOE K w).2)) ∧
    (∀ (K : Windows.Host) (p : Windows.Proc),
      Windows.isTerminal p Term.stdinFd = false →
      Windows.isTerminal p Term.stdoutFd = true →
        ∃ m0 : Nat,
          Windows.GetConsoleMode (Windows.stdStreams K p).1 Term.stdoutFd = some m0 ∧
          (Windows.NewIOE K p).2.i = none ∧
          (Windows.NewIOE K p).2.o = some { mode := m0 } ∧
          ∃ (ro : Bool) (evs : List (Term.Event Nat)) (p'' : Windows.Proc)
              (s'' : Windows.IOE),
            Windows.Close K (Windows.NewIOE K p).1 (some (Windows.NewIOE K p).2) =
              some (p'', some s'') ∧
            p''.world.log =
              (Windows.NewIOE K p).1.world.log ++ evs ++ [Term.Event.set Term.stdoutFd m0 ro] ∧
            (∀ c ok, Term.Event.set Term.stdinFd c ok ∉ evs) ∧
            s''.i = none ∧
            (ro = true →
              Windows.GetConsoleMode p'' Term.stdoutFd = some m0 ∧ s''.o = none)) := by
  constructor
  · intro K w h
    have hn := Unix.NewIOE_not_terminal K w h
    refine ⟨hn, ?_⟩
    rw [hn]
    rfl
  · intro K p hin hout
    rw [Windows.isTerminal_false_iff_windows] at hin
    rw [Windows.isTerminal_true_iff] at hout
    obtain ⟨d, hout⟩ := hout
    obtain ⟨hi, ho, hdev⟩ := Windows.NewIOE_redirected K p d hin hout
    have hd0 : (Windows.stdStreams K p).1.world.dev Term.stdoutFd = some d := by
      rw [(Windows.stdStreams_frame K p).1]; exact hout
    refine ⟨(Windows.stdStreams K p).1.world.cfg d,
      Windows.GetConsoleMode_of_dev _ _ d hd0, hi, ho, ?_⟩
    obtain ⟨rr, hr2, hrl, hrd, _, _⟩ :=
      Windows.closeReader_spec K (Windows.NewIOE K p).1 (Windows.NewIOE K p).2.rc
    obtain ⟨re, p1, he, hel, hed, _, _, _⟩ :=
      Windows.restoreSlot_spec_windows K
        (Windows.closeReader K (Windows.NewIOE K p).1 (Windows.NewIOE K p).2.rc).1
        Term.stderrFd (Windows.NewIOE K p).2.e
    obtain ⟨ro, p2, hso, hol, hod, _, _, hoc⟩ :=
      Windows.restoreSlot_spec_windows K p1 Term.stdoutFd (Windows.NewIOE K p).2.o
    have hp1 : p1.world.dev Term.stdoutFd = some d := by
      rw [hed, hrd, hdev]; exact hout
    refine ⟨ro, Windows.readerTrace (Windows.NewIOE K p).2.rc rr ++
        Windows.restoreTrace Term.stderrFd (Windows.NewIOE K p).2.e re, p2,
      { i := none, o := Windows.slotAfter (Windows.NewIOE K p).2.o ro,
        e := Windows.slotAfter (Windows.NewIOE K p).2.e re,
        rc := Windows.readerAfter (Windows.NewIOE K p).2.rc rr }, ?_, ?_, ?_, rfl, ?_⟩
    · have hsi : Windows.restoreSlot K p2 Term.stdinFd (Windows.NewIOE K p).2.i =
          some (p2, none) := by rw [hi]; rfl
      simp only [Windows.Close, he, hso, hsi, hr2]
    · rw [hol, hel, hrl, ho]
      simp [Windows.restoreTrace, List.append_assoc]
    · intro c ok hmem
      rcases List.mem_append.mp hmem with h | h
      · cases hrc : (Windows.NewIOE K p).2.rc <;>
          simp [Windows.readerTrace, hrc] at h
      · cases hse : (Windows.NewIOE K p).2.e <;>
          simp [Windows.restoreTrace, hse, Term.stdinFd, Term.stderrFd] at h
    · intro hro
      refine ⟨?_, ?_⟩
      · have hc := hoc hro _ d ho hp1
        have hd2 : p2.world.dev Term.stdoutFd = some d := by rw [hod]; exact hp1
        rw [Windows.GetConsoleMode_of_dev p2 _ d hd2, hc]
      · rw [ho, hro]
        rfl

/-- Witness of C3: stdin redirected from a file while stdout and stderr are a
terminal. -/
theorem newIOE_stdin_not_terminal_witness :
    (Unix.NewIOE Unix.accepting Unix.pipedWorld =
        (Unix.pipedWorld,
          { i := none, o := none, e := none, rc := some Term.ReadCloser.osStdin }) ∧
      Unix.Close Unix.accepting Unix.pipedWorld
          (some (Unix.NewIOE Unix.accepting Unix.pipedWorld).2) =
        (Unix.pipedWorld, some (Unix.NewIOE Unix.accepting Unix.pipedWorld).2)) ∧
    (∃ m0 : Nat,
      Windows.GetConsoleMode (Windows.stdStreams Windows.accepting Windows.redirected).1
        Term.stdoutFd = some m0 ∧
      (Windows.NewIOE Windows.accepting Windows.redirected).2.i = none ∧
      (Windows.NewIOE Windows.accepting Windows.redirected).2.o = some { mode := m0 } ∧
      ∃ (ro : Bool) (evs : List (Term.Event Nat)) (p'' : Windows.Proc)
          (s'' : Windows.IOE),
        Windows.Close Windows.accepting (Windows.NewIOE Windows.accepting Windows.redirected).1
            (some (Windows.NewIOE Windows.accepting Windows.redirected).2) =
          some (p'', some s'') ∧
        p''.world.log =
          (Windows.NewIOE Windows.accepting Windows.redirected).1.world.log ++ evs
            ++ [Term.Event.set Term.stdoutFd m0 ro] ∧
        (∀ c ok, Term.Event.set Term.stdinFd c ok ∉ evs) ∧
        s''.i = none ∧
        (ro = true →
          Windows.GetConsoleMode p'' Term.stdoutFd = some m0 ∧ s''.o = none)) :=
  ⟨newIOE_stdin_not_terminal.1 Unix.accepting Unix.pipedWorld (by decide),
   newIOE_stdin_not_terminal.2 Windows.accepting Windows.redirected (by decide) (by decide)⟩

/-- Counterexample to C3 as stated. On Unix, with stdin a file and stdout a
terminal, the stdout slot of the session is absent. On Windows, with stdin a
file and stdout a console in mode 3, the stdout slot holds mode 7: the
`stdStreams` probe has turned ENABLE_VIRTUAL_TERMINAL_PROCESSING on before the
snapshot is taken. -/
theorem newIOE_stdout_slot_counterexample :
    (Unix.isTerminal Unix.pipedWorld Term.stdinFd = false ∧
      Unix.isTerminal Unix.pipedWorld Term.stdoutFd = true ∧
      (Unix.NewIOE Unix.accepting Unix.pipedWorld).2.o = none) ∧
    (Windows.isTerminal Windows.redirected Term.stdinFd = false ∧
      Windows.GetConsoleMode Windows.redirected Term.stdoutFd = some 3 ∧
      (Windows.NewIOE Windows.accepting Windows.redirected).2.o = some { mode := 7 }) := by
  refine ⟨⟨by decide, by decide, by decide⟩, ⟨by decide, by decide, by decide⟩⟩

/-- C4. Interrupt-triggered restoration: arming with `restoreAtInterrupt`
registers the handler for `fd` with snapshot `S`. When the interrupt signal is
delivered to a registered handler of `fd` and `S`, in any state `q` of the
running process, the handler returns (no panic) and what it does is exactly
`SetConsoleMode(fd, S.mode)`, the restore of `S` on `fd`, followed by
`os.Exit(0)`: the trace grows by the restore, with the outcome the system gave
it, and then the exit with status 0, and the console modes are those the
restore call leaves. When the system accepts the restore the console behind
`fd` holds the mode of `S`; when it rejects it the exit is reached all the
same. The process has then terminated and no other handler runs. -/
theorem interrupt_handler_restores_then_exits (K : Windows.Host) (fd : Nat)
    (S : Windows.State) :
    (∀ p : Windows.Proc,
      (Windows.restoreAtInterrupt p fd (some S)).handlers[p.handlers.length]? =
        some (fd, some S)) ∧
    (∀ (q : Windows.Proc) (i : Nat),
      q.handlers[i]? = some (fd, some S) → Windows.exited q = false →
      ∃ q' : Windows.Proc,
        Windows.deliverInterrupt K q i = some q' ∧
        q'.world.log = q.world.log ++
          [Term.Event.set fd S.mode (Windows.SetConsoleMode K q fd S.mode).2,
           Term.Event.exit 0] ∧
        q'.world.cfg = (Windows.SetConsoleMode K q fd S.mode).1.world.cfg ∧
        (∀ d, q.world.dev fd = some d →
          (Windows.SetConsoleMode K q fd S.mode).2 = K.accept q.world fd S.mode ∧
          (K.accept q.world fd S.mode = true → q'.world.cfg d = S.mode)) ∧
        Windows.exited q' = true ∧
        ∀ j, Windows.deliverInterrupt K q' j = some q') := by
  refine ⟨fun p => by simp [Windows.restoreAtInterrupt], ?_⟩
  intro q i hreg hex
  refine ⟨Windows.osExit (Windows.SetConsoleMode K q fd S.mode).1 0, ?_, ?_, rfl, ?_,
    Windows.exited_osExit _ _,
    fun j => Windows.deliverInterrupt_exited K _ j (Windows.exited_osExit _ _)⟩
  · simp only [Windows.deliverInterrupt, hreg, hex]
    exact Windows.interruptHandler_eq K q fd S
  · simp only [Windows.osExit, Windows.SetConsoleMode_log, List.append_assoc,
      List.singleton_append]
  · intro d hd
    refine ⟨Windows.SetConsoleMode_ok K q fd d S.mode hd, fun hacc => ?_⟩
    exact Windows.SetConsoleMode_cfg_of_ok K q fd d S.mode hd
      (by rw [Windows.SetConsoleMode_ok K q fd d S.mode hd]; exact hacc)

/-- Witness of C4: stdin of a console, left in mode 0x1f0 by a raw-mode
program, armed with the snapshot 0x1f7; the signal is delivered to the
armed handler. -/
theorem interrupt_handler_restores_then_exits_witness :
    ∃ q' : Windows.Proc,
      Windows.deliverInterrupt Windows.accepting Windows.armedRaw 0 = some q' ∧
      q'.world.log = Windows.armedRaw.world.log ++
        [Term.Event.set Term.stdinFd 0x1f7
           (Windows.SetConsoleMode Windows.accepting Windows.armedRaw Term.stdinFd 0x1f7).2,
         Term.Event.exit 0] ∧
      q'.world.cfg =
        (Windows.SetConsoleMode Windows.accepting Windows.armedRaw Term.stdinFd
          0x1f7).1.world.cfg ∧
      (∀ d, Windows.armedRaw.world.dev Term.stdinFd = some d →
        (Windows.SetConsoleMode Windows.accepting Windows.armedRaw Term.stdinFd 0x1f7).2 =
          Windows.accepting.accept Windows.armedRaw.world Term.stdinFd 0x1f7 ∧
        (Windows.accepting.accept Windows.armedRaw.world Term.stdinFd 0x1f7 = true →
          q'.world.cfg d = 0x1f7)) ∧
      Windows.exited q' = true ∧
      ∀ j, Windows.deliverInterrupt Windows.accepting q' j = some q' :=
  (interrupt_handler_restores_then_exits Windows.accepting Term.stdinFd { mode := 0x1f7 }).2
    Windows.armedRaw 0 (by decide) (by decide)

/-- C5, as amended. What `disableEcho` installs: the call returns (the state
is not nil), issues exactly one configuration call, and leaves `*state` as it
was. On Unix the installed termios has the ECHO bit of `Lflag` cleared, every
other bit of `Lflag` and every other field equal to the snapshot's. On Windows
the installed mode has ENABLE_ECHO_INPUT cleared, ENABLE_PROCESSED_INPUT and
ENABLE_LINE_INPUT set whatever they are in the snapshot, and every other bit
equal to the snapshot's. -/
theorem disableEcho_installed_configuration :
    (∀ (K : Term.Platform Unix.Termios) (w : Term.World Unix.Termios) (fd : Nat)
        (st : Unix.State),
      ∃ (c : Unix.Termios) (ok : Bool) (w' : Term.World Unix.Termios)
          (err : Option Term.Error),
        Unix.disableEcho K w fd (some st) = some (w', st, err) ∧
        w'.log = w.log ++ [Term.Event.set fd c ok] ∧
        (∀ i, c.Lflag.testBit i =
          if Unix.ECHO.testBit i then false else st.termios.Lflag.testBit i) ∧
        { c with Lflag := st.termios.Lflag } = st.termios) ∧
    (∀ (K : Windows.Host) (p : Windows.Proc) (fd : Nat) (st : Windows.State),
      ∃ (c : Nat) (ok : Bool) (p' : Windows.Proc) (err : Option Term.Error),
        Windows.disableEcho K p fd (some st) = some (p', st, err) ∧
        p'.world.log = p.world.log ++ [Term.Event.set fd c ok] ∧
        (∀ i, c.testBit i =
          if Windows.ENABLE_ECHO_INPUT.testBit i then false
          else if (Windows.ENABLE_PROCESSED_INPUT ||| Windows.ENABLE_LINE_INPUT).testBit i
            then true
          else st.mode.testBit i)) := by
  constructor
  · intro K w fd st
    have hl := Unix.tcset_log K w fd
      { st.termios with Lflag := Term.andNot st.termios.Lflag Unix.ECHO }
    refine ⟨{ st.termios with Lflag := Term.andNot st.termios.Lflag Unix.ECHO }, _, _, _,
      rfl, hl, ?_, rfl⟩
    intro i
    simp only [Term.testBit_andNot]
    cases Unix.ECHO.testBit i <;> simp
  · intro K p fd st
    have hl := Windows.SetConsoleMode_log K p fd
      (Term.andNot st.mode Windows.ENABLE_ECHO_INPUT |||
        (Windows.ENABLE_PROCESSED_INPUT ||| Windows.ENABLE_LINE_INPUT))
    have hbits : ∀ i, (Term.andNot st.mode Windows.ENABLE_ECHO_INPUT |||
        (Windows.ENABLE_PROCESSED_INPUT ||| Windows.ENABLE_LINE_INPUT)).testBit i =
          if Windows.ENABLE_ECHO_INPUT.testBit i then false
          else if (Windows.ENABLE_PROCESSED_INPUT ||| Windows.ENABLE_LINE_INPUT).testBit i
            then true
          else st.mode.testBit i := by
      intro i
      rw [Nat.testBit_or, Term.testBit_andNot]
      by_cases h2 : i = 2
      · subst h2
        have h1 : Windows.ENABLE_ECHO_INPUT.testBit 2 = true := by decide
        have h3 : (Windows.ENABLE_PROCESSED_INPUT ||| Windows.ENABLE_LINE_INPUT).testBit 2
            = false := by decide
        simp [h1, h3]
      · have h1 : Windows.ENABLE_ECHO_INPUT.testBit i = false := by
          show (2 ^ 2).testBit i = false
          rw [Nat.testBit_two_pow]
          simp
          omega
        rw [h1]
        cases (Windows.ENABLE_PROCESSED_INPUT ||| Windows.ENABLE_LINE_INPUT).testBit i <;> simp
    simp only [Windows.disableEcho]
    rcases hs : Windows.SetConsoleMode K p fd
      (Term.andNot st.mode Windows.ENABLE_ECHO_INPUT |||
        (Windows.ENABLE_PROCESSED_INPUT ||| Windows.ENABLE_LINE_INPUT)) with ⟨p1, ok⟩
    rw [hs] at hl
    cases ok with
    | false => exact ⟨_, false, p1, _, rfl, hl, hbits⟩
    | true => exact ⟨_, true, _, _, rfl, hl, hbits⟩

/-- Counterexample to C5 as stated: on Windows, for the snapshot with mode 0
(line input and processed input off), `disableEcho` installs mode 3, in which
ENABLE_LINE_INPUT and ENABLE_PROCESSED_INPUT are on: these two bits do not
keep the value they have in the snapshot. -/
theorem disableEcho_windows_sets_line_and_processed :
    (Windows.disableEcho Windows.accepting Windows.console Term.stdinFd
        (some { mode := 0 })).map (fun r => r.1.world.log) =
      some [Term.Event.set Term.stdinFd 3 true] ∧
    Nat.testBit 3 1 ≠ Nat.testBit 0 1 ∧ Nat.testBit 3 0 ≠ Nat.testBit 0 0 := by
  refine ⟨by decide, by decide, by decide⟩

/-- C6, as amended. The probes of `stdStreams`, which runs the stdin probe,
then the output probe on stdout, then on stderr. On a console stdin the probe
issues the experimental call and then, for either outcome, the call that sets
the mode read at the start back; when that call succeeds stdin has that mode
again; `vtInputSupported` becomes true when the experimental call succeeds.
On a console stdout or stderr there is no revert: when the experimental call
fails no other call is issued, and when it succeeds one more call installs
the mode read at the start with ENABLE_VIRTUAL_TERMINAL_PROCESSING turned on,
which the handle has afterwards when that call succeeds. A handle that is not
a console is left alone. -/
theorem stdStreams_probe_effects (K : Windows.Host) (p : Windows.Proc) :
    (Windows.stdStreams K p).1 =
      (Windows.stdStreams.probeOutput K
        (Windows.stdStreams.probeOutput K (Windows.stdStreams.probeStdin K p).1
          Term.stdoutFd).1 Term.stderrFd).1 ∧
    (∀ m, Windows.GetConsoleMode p Term.stdinFd = some m →
      ∃ ok ok2 : Bool,
        (Windows.stdStreams.probeStdin K p).1.world.log =
          p.world.log ++
            [Term.Event.set Term.stdinFd (m ||| Windows.ENABLE_VIRTUAL_TERMINAL_INPUT) ok,
             Term.Event.set Term.stdinFd m ok2] ∧
        (Windows.stdStreams.probeStdin K p).1.vtInputSupported =
          (p.vtInputSupported || ok) ∧
        (ok2 = true →
          Windows.GetConsoleMode (Windows.stdStreams.probeStdin K p).1 Term.stdinFd
            = some m)) ∧
    (∀ fd m, Windows.GetConsoleMode p fd = some m →
      ∃ ok : Bool,
        (ok = false →
          (Windows.stdStreams.probeOutput K p fd).1.world.log =
            p.world.log ++ [Term.Event.set fd
              (m ||| Windows.ENABLE_VIRTUAL_TERMINAL_PROCESSING |||
                Windows.DISABLE_NEWLINE_AUTO_RETURN) false]) ∧
        (ok = true → ∃ ok2 : Bool,
          (Windows.stdStreams.probeOutput K p fd).1.world.log =
            p.world.log ++ [Term.Event.set fd
              (m ||| Windows.ENABLE_VIRTUAL_TERMINAL_PROCESSING |||
                Windows.DISABLE_NEWLINE_AUTO_RETURN) true,
              Term.Event.set fd (m ||| Windows.ENABLE_VIRTUAL_TERMINAL_PROCESSING) ok2] ∧
          (ok2 = true →
            Windows.GetConsoleMode (Windows.stdStreams.probeOutput K p fd).1 fd =
              some (m ||| Windows.ENABLE_VIRTUAL_TERMINAL_PROCESSING))) ∧
        (Windows.stdStreams.probeOutput K p fd).1.vtInputSupported = p.vtInputSupported) ∧
    (Windows.GetConsoleMode p Term.stdinFd = none →
      Windows.stdStreams.probeStdin K p = (p, false)) ∧
    (∀ fd, Windows.GetConsoleMode p fd = none →
      Windows.stdStreams.probeOutput K p fd = (p, false)) := by
  refine ⟨rfl, ?_, ?_, Windows.probeStdin_not_console K p,
    Windows.probeOutput_not_console K p⟩
  · intro m hg
    obtain ⟨ok, ok2, h1, _, h3, _, h5⟩ := Windows.probeStdin_spec K p m hg
    exact ⟨ok, ok2, h1, h3, h5⟩
  · intro fd m hg
    obtain ⟨ok, _, _, h3, h4⟩ := Windows.probeOutput_spec K p fd m hg
    exact ⟨ok, h3, h4, (Windows.probeOutput_frame K p fd).2.2⟩

/-- Witness of C6: the probes on a console that accepts every mode. -/
theorem stdStreams_probe_effects_witness :
    (∃ ok ok2 : Bool,
        (Windows.stdStreams.probeStdin Windows.accepting Windows.console).1.world.log =
          Windows.console.world.log ++
            [Term.Event.set Term.stdinFd (0x1f7 ||| Windows.ENABLE_VIRTUAL_TERMINAL_INPUT) ok,
             Term.Event.set Term.stdinFd 0x1f7 ok2] ∧
        (Windows.stdStreams.probeStdin Windows.accepting Windows.console).1.vtInputSupported =
          (Windows.console.vtInputSupported || ok) ∧
        (ok2 = true →
          Windows.GetConsoleMode
            (Windows.stdStreams.probeStdin Windows.accepting Windows.console).1 Term.stdinFd
            = some 0x1f7)) ∧
    Windows.stdStreams.probeOutput Windows.accepting Windows.redirected Term.stdinFd =
      (Windows.redirected, false) :=
  ⟨(stdStreams_probe_effects Windows.accepting Windows.console).2.1 0x1f7 (by decide),
   (stdStreams_probe_effects Windows.accepting Windows.redirected).2.2.2.2 Term.stdinFd
     (by decide)⟩

/-- Counterexample to C6 as stated: stdout is a console in mode 3 and every
call succeeds; when `stdStreams` has returned stdout is in mode 7, not in the
mode read at the start of its probe. -/
theorem stdStreams_leaves_vt_processing_on :
    Windows.GetConsoleMode Windows.console Term.stdoutFd = some 3 ∧
    Windows.GetConsoleMode (Windows.stdStreams Windows.accepting Windows.console).1
      Term.stdoutFd = some 7 := by
  refine ⟨by decide, by decide⟩

/-- C8. Stream selection in `stdStreams`: each returned stream is the
emulated ANSI reader or writer if and only if `GetConsoleMode` succeeds on the
handle and the call that tries to enable native VT processing on it fails, and
is the native `os.Stdin`, `os.Stdout`, `os.Stderr` in every other case, in
particular whenever the handle is not a terminal. The probes run in the order
stdin, stdout, stderr, each in the process state the one before left. On Unix
`stdStreams` is the three native streams. -/
theorem stdStreams_selects_emulation_iff_probe_fails (K : Windows.Host) (p : Windows.Proc) :
    (((Windows.stdStreams K p).2.1 = Term.ReadCloser.ansiReader Windows.STD_INPUT_HANDLE ↔
        ∃ m, Windows.GetConsoleMode p Term.stdinFd = some m ∧
          (Windows.SetConsoleMode K p Term.stdinFd
            (m ||| Windows.ENABLE_VIRTUAL_TERMINAL_INPUT)).2 = false) ∧
      ((Windows.stdStreams K p).2.1 = Term.ReadCloser.ansiReader Windows.STD_INPUT_HANDLE ∨
        (Windows.stdStreams K p).2.1 = Term.ReadCloser.osStdin)) ∧
    (((Windows.stdStreams K p).2.2.1 = Term.Writer.ansiWriter Windows.STD_OUTPUT_HANDLE ↔
        ∃ m, Windows.GetConsoleMode (Windows.stdStreams.probeStdin K p).1 Term.stdoutFd
            = some m ∧
          (Windows.SetConsoleMode K (Windows.stdStreams.probeStdin K p).1 Term.stdoutFd
            (m ||| Windows.ENABLE_VIRTUAL_TERMINAL_PROCESSING |||
              Windows.DISABLE_NEWLINE_AUTO_RETURN)).2 = false) ∧
      ((Windows.stdStreams K p).2.2.1 = Term.Writer.ansiWriter Windows.STD_OUTPUT_HANDLE ∨
        (Windows.stdStreams K p).2.2.1 = Term.Writer.osStdout)) ∧
    (((Windows.stdStreams K p).2.2.2 = Term.Writer.ansiWriter Windows.STD_ERROR_HANDLE ↔
        ∃ m, Windows.GetConsoleMode
            (Windows.stdStreams.probeOutput K (Windows.stdStreams.probeStdin K p).1
              Term.stdoutFd).1 Term.stderrFd = some m ∧
          (Windows.SetConsoleMode K
            (Windows.stdStreams.probeOutput K (Windows.stdStreams.probeStdin K p).1
              Term.stdoutFd).1 Term.stderrFd
            (m ||| Windows.ENABLE_VIRTUAL_TERMINAL_PROCESSING |||
              Windows.DISABLE_NEWLINE_AUTO_RETURN)).2 = false) ∧
      ((Windows.stdStreams K p).2.2.2 = Term.Writer.ansiWriter Windows.STD_ERROR_HANDLE ∨
        (Windows.stdStreams K p).2.2.2 = Term.Writer.osStderr)) ∧
    (Windows.isTerminal p Term.stdinFd = false →
      (Windows.stdStreams K p).2.1 = Term.ReadCloser.osStdin) ∧
    (Windows.isTerminal p Term.stdoutFd = false →
      (Windows.stdStreams K p).2.2.1 = Term.Writer.osStdout) ∧
    (Windows.isTerminal p Term.stderrFd = false →
      (Windows.stdStreams K p).2.2.2 = Term.Writer.osStderr) ∧
    Unix.stdStreams =
      (Term.ReadCloser.osStdin, Term.Writer.osStdout, Term.Writer.osStderr) := by
  have hin := Windows.probeStdin_flag K p
  have hout := Windows.probeOutput_flag K (Windows.stdStreams.probeStdin K p).1 Term.stdoutFd
  have herr := Windows.probeOutput_flag K
    (Windows.stdStreams.probeOutput K (Windows.stdStreams.probeStdin K p).1 Term.stdoutFd).1
    Term.stderrFd
  have hd1 := (Windows.probeStdin_frame K p).1
  have hd2 := (Windows.probeOutput_frame K (Windows.stdStreams.probeStdin K p).1
    Term.stdoutFd).1
  rw [Windows.stdStreams_streams]
  refine ⟨⟨?_, ?_⟩, ⟨?_, ?_⟩, ⟨?_, ?_⟩, ?_, ?_, ?_, rfl⟩
  · rw [← hin]
    cases (Windows.stdStreams.probeStdin K p).2 <;> simp
  · cases (Windows.stdStreams.probeStdin K p).2 <;> simp
  · rw [← hout]
    cases (Windows.stdStreams.probeOutput K (Windows.stdStreams.probeStdin K p).1
      Term.stdoutFd).2 <;> simp
  · cases (Windows.stdStreams.probeOutput K (Windows.stdStreams.probeStdin K p).1
      Term.stdoutFd).2 <;> simp
  · rw [← herr]
    cases (Windows.stdStreams.probeOutput K
      (Windows.stdStreams.probeOutput K (Windows.stdStreams.probeStdin K p).1
        Term.stdoutFd).1 Term.stderrFd).2 <;> simp
  · cases (Windows.stdStreams.probeOutput K
      (Windows.stdStreams.probeOutput K (Windows.stdStreams.probeStdin K p).1
        Term.stdoutFd).1 Term.stderrFd).2 <;> simp
  · intro h
    rw [Windows.isTerminal_false_iff_windows] at h
    have : (Windows.stdStreams.probeStdin K p).2 = false := by
      rw [Windows.probeStdin_not_console K p (Windows.GetConsoleMode_none p _ h)]
    simp only [this]
    rfl
  · intro h
    rw [Windows.isTerminal_false_iff_windows] at h
    have : (Windows.stdStreams.probeOutput K (Windows.stdStreams.probeStdin K p).1
        Term.stdoutFd).2 = false := by
      rw [Windows.probeOutput_not_console K _ _
        (Windows.GetConsoleMode_none _ _ (by rw [hd1]; exact h))]
    simp only [this]
    rfl
  · intro h
    rw [Windows.isTerminal_false_iff_windows] at h
    have : (Windows.stdStreams.probeOutput K
        (Windows.stdStreams.probeOutput K (Windows.stdStreams.probeStdin K p).1
          Term.stdoutFd).1 Term.stderrFd).2 = false := by
      rw [Windows.probeOutput_not_console K _ _
        (Windows.GetConsoleMode_none _ _ (by rw [hd2, hd1]; exact h))]
    simp only [this]
    rfl

/-- C10, as amended. Interrupt handlers stack: a sequence of arming
operations (`setRawTerminal(fd)`, `disableEcho(fd, state)`) always returns,
keeps every handler registered before it, and registers for each descriptor
one more handler per arming operation on it that succeeded; nothing replaces
or removes an earlier registration. -/
theorem arming_adds_one_handler_each (K : Windows.Host) (p : Windows.Proc)
    (ops : List Windows.ArmOp) :
    ∃ (p' : Windows.Proc) (oks : List (Nat × Bool)),
      Windows.armAll K p ops = some (p', oks) ∧
      oks.map (fun r => r.1) = ops.map Windows.ArmOp.fd ∧
      (∃ added, p'.handlers = p.handlers ++ added) ∧
      ∀ fd, Windows.handlersFor p' fd =
        Windows.handlersFor p fd + oks.count (fd, true) :=
  Windows.armAll_spec K ops p

/-- Counterexample to C10 as stated: on a console, `disableEcho(stdin, s1)`
followed by `disableEcho(stdin, s2)` leaves two interrupt handlers registered
for stdin, one per snapshot, and so does `setRawTerminal(stdin)` followed by
`disableEcho(stdin, state)`. -/
theorem rearming_stacks_two_handlers :
    (Windows.armAll Windows.accepting Windows.console
        [Windows.ArmOp.echoOff Term.stdinFd { mode := 0x1f7 },
         Windows.ArmOp.echoOff Term.stdinFd { mode := 0x1f3 }]).map
      (fun r => r.1.handlers) =
      some [(Term.stdinFd, some { mode := 0x1f7 }), (Term.stdinFd, some { mode := 0x1f3 })] ∧
    (Windows.armAll Windows.accepting Windows.console
        [Windows.ArmOp.echoOff Term.stdinFd { mode := 0x1f7 },
         Windows.ArmOp.echoOff Term.stdinFd { mode := 0x1f3 }]).map
      (fun r => Windows.handlersFor r.1 Term.stdinFd) = some 2 ∧
    (Windows.armAll Windows.accepting Windows.console
        [Windows.ArmOp.setRaw Term.stdinFd,
         Windows.ArmOp.echoOff Term.stdinFd { mode := 0x1f7 }]).map
      (fun r => Windows.handlersFor r.1 Term.stdinFd) = some 2 := by
  refine ⟨by decide, by decide, by decide⟩
